import Mathlib

/-!
The widget `cocos2d::ui::Button` of core/ui/UIButton.cpp.

A shallow embedding of the button widget and the properties established for it.

Modelling conventions

* A `Button` value is the state of one constructed and initialised button (after
  `Button::create`): the three background renderers exist, the title renderer is optional.
* `float` members hold the finite values, as rationals. Halving is exact (it is on the
  machine too, away from the subnormal range); the
  one sum the file computes, `1.0f + _zoomScale`, is rounded to the nearest binary32 value
  as the machine does (`Float32.add`), and float literals stand for the binary32 value
  nearest to them (`0.1f` is 13421773/134217728).
* Plain setters and getters of the collaborating nodes (`setVisible`, `setScale`,
  `setPosition`, `setString`, `setCapInsets`, `stopAllActions`, `runAction`,
  `addProtectedChild`, ...) are reads and writes of record fields.
* Everything else the surrounding toolkit computes (texture loading, text layout, font
  configuration, the base class size policy, file lookup, cap inset restriction) is not
  part of UIButton.cpp and is taken as a parameter, the record `Engine`.
* Dereferencing a null `_titleRenderer` is a fault: such methods return `Option Button`
  and `none` stands for the fault.
-/

namespace ui

/-! Arithmetic of `float` (IEEE 754 binary32, round to nearest, ties to even) -/

namespace Float32

/-- The integer nearest to `y`; of two equally near integers the even one. -/
def roundHalfEven (y : ℚ) : ℤ :=
  if y - ⌊y⌋ < 1 / 2 then ⌊y⌋
  else if 1 / 2 < y - ⌊y⌋ then ⌊y⌋ + 1
  else if ⌊y⌋ % 2 = 0 then ⌊y⌋ else ⌊y⌋ + 1

/-- Spacing of the binary32 values around `x`: with `2 ^ e ≤ |x| < 2 ^ (e + 1)` the 24-bit
significand gives steps of `2 ^ (e - 23)`; below `2 ^ (-126)` (subnormal values and zero)
the steps stay at `2 ^ (-149)`. -/
def ulp (x : ℚ) : ℚ := 2 ^ (max (Int.log 2 |x|) (-126) - 23)

/-- The binary32 value nearest to `x`, ties to the even significand. Finite results only:
from `2 ^ 128 - 2 ^ 103` on the machine gives infinity, which no member holds here. -/
def round (x : ℚ) : ℚ := roundHalfEven (x / ulp x) * ulp x

/-- Embeds `x + y` on `float` under the default rounding mode: the exact sum, rounded once.
With `x = 1` and `y` a finite binary32 value the result is finite. -/
def add (x y : ℚ) : ℚ := round (x + y)

end Float32

/-! Value types of the toolkit -/

/-- The toolkit's `Vec2`; sizes use the same type, with `width`/`height` naming `x`/`y`. -/
structure Vec2 where
  x : ℚ
  y : ℚ
deriving DecidableEq, Repr

namespace Vec2

/-- Embeds `Vec2::ZERO`. -/
def ZERO : Vec2 := ⟨0, 0⟩

/-- Embeds `Vec2::ANCHOR_MIDDLE`. -/
def ANCHOR_MIDDLE : Vec2 := ⟨1 / 2, 1 / 2⟩

/-- Member `width`, an alias of `x`. -/
abbrev width (v : Vec2) : ℚ := v.x

/-- Member `height`, an alias of `y`. -/
abbrev height (v : Vec2) : ℚ := v.y

end Vec2

/-- The toolkit's `Rect`. -/
structure Rect where
  origin : Vec2
  size : Vec2
deriving DecidableEq, Repr

/-- Embeds `Rect::ZERO`. -/
def Rect.ZERO : Rect := ⟨Vec2.ZERO, Vec2.ZERO⟩

/-- Embeds `Color3B`. -/
structure Color3B where
  r : Nat
  g : Nat
  b : Nat
deriving DecidableEq, Repr

/-- Embeds `Color4B`. -/
structure Color4B where
  r : Nat
  g : Nat
  b : Nat
  a : Nat
deriving DecidableEq, Repr

/-- Embeds `Color3B::WHITE`. -/
def Color3B.WHITE : Color3B := ⟨255, 255, 255⟩

/-- The conversion `Color4B(const Color3B&)`: opaque alpha. -/
def Color4B.ofColor3B (c : Color3B) : Color4B := ⟨c.r, c.g, c.b, 255⟩

/-- The conversion `Color3B(const Color4B&)`: alpha dropped. -/
def Color3B.ofColor4B (c : Color4B) : Color3B := ⟨c.r, c.g, c.b⟩

/-- Embeds `Widget::TextureResType`. -/
inductive TextureResType where
  | LOCAL
  | PLIST
deriving DecidableEq, Repr

/-- The cast `(int)texType` (enumerators `LOCAL = 0`, `PLIST = 1`). -/
def TextureResType.toInt : TextureResType → Int
  | .LOCAL => 0
  | .PLIST => 1

/-- Embeds `Widget::BrightStyle`. -/
inductive BrightStyle where
  | NONE
  | NORMAL
  | HIGHLIGHT
deriving DecidableEq, Repr

/-- Embeds `Scale9Sprite::RenderingType`. -/
inductive RenderingType where
  | SIMPLE
  | SLICE
deriving DecidableEq, Repr

/-- Embeds `Scale9Sprite::State`. -/
inductive SpriteState where
  | NORMAL
  | GRAY
deriving DecidableEq, Repr

/-- Embeds `Label::LabelType`. -/
inductive LabelType where
  | TTF
  | BMFONT
  | CHARMAP
  | STRING_TEXTURE
deriving DecidableEq, Repr

/-- The two members of `TTFConfig` the button reads or writes. -/
structure TTFConfig where
  fontFilePath : String
  fontSize : ℚ
deriving DecidableEq, Repr

/-- Actions the button starts on its nodes: `ScaleTo::create(duration, sx, sy)`. -/
inductive Action where
  | scaleTo (duration sx sy : ℚ)
deriving DecidableEq, Repr

/-- Embeds `ResourceData`, as filled in by the `get*File` methods. -/
structure ResourceData where
  type : Int
  file : String
deriving DecidableEq, Repr

/-- A `SpriteFrame*` argument: `none` is `nullptr`, `some k` a frame named by `k`. -/
abbrev SpriteFramePtr := Option Nat

/-! Collaborating nodes -/

/-- State of a `Scale9Sprite` background renderer, as far as the button drives it. -/
structure Scale9Sprite where
  visible : Bool
  state : SpriteState
  scaleX : ℚ
  scaleY : ℚ
  renderingType : RenderingType
  capInsets : Rect
  preferredSize : Vec2
  position : Vec2
  actions : List Action
  /-- What the toolkit keeps of the image shown (set by the `initWith*` calls) -/
  texture : String
deriving DecidableEq, Repr

namespace Scale9Sprite

/-- Embeds `Node::setVisible`. -/
def setVisible (v : Bool) (s : Scale9Sprite) : Scale9Sprite := { s with visible := v }

/-- Embeds `Scale9Sprite::setState`. -/
def setState (st : SpriteState) (s : Scale9Sprite) : Scale9Sprite := { s with state := st }

/-- Embeds `Node::setScale(float)`: both axes. -/
def setScale (k : ℚ) (s : Scale9Sprite) : Scale9Sprite := { s with scaleX := k, scaleY := k }

/-- Embeds `Node::setScale(float, float)`. -/
def setScaleXY (kx ky : ℚ) (s : Scale9Sprite) : Scale9Sprite :=
  { s with scaleX := kx, scaleY := ky }

/-- Embeds `Node::stopAllActions`. -/
def stopAllActions (s : Scale9Sprite) : Scale9Sprite := { s with actions := [] }

/-- Embeds `Node::runAction`. -/
def runAction (a : Action) (s : Scale9Sprite) : Scale9Sprite :=
  { s with actions := s.actions ++ [a] }

/-- Embeds `Scale9Sprite::setRenderingType`. -/
def setRenderingType (t : RenderingType) (s : Scale9Sprite) : Scale9Sprite :=
  { s with renderingType := t }

/-- Embeds `Scale9Sprite::setCapInsets`. -/
def setCapInsets (r : Rect) (s : Scale9Sprite) : Scale9Sprite := { s with capInsets := r }

/-- Embeds `Scale9Sprite::setPreferredSize`. -/
def setPreferredSize (v : Vec2) (s : Scale9Sprite) : Scale9Sprite :=
  { s with preferredSize := v }

/-- Embeds `Node::setPosition(float, float)`. -/
def setPosition (px py : ℚ) (s : Scale9Sprite) : Scale9Sprite :=
  { s with position := ⟨px, py⟩ }

end Scale9Sprite

/-- State of a `Label`; `ptr` is the address that identifies the node. -/
structure Label where
  ptr : Nat
  string : String
  textColor : Color4B
  labelType : LabelType
  ttfConfig : TTFConfig
  systemFontName : String
  systemFontSize : ℚ
  bmFontFilePath : String
  anchorPoint : Vec2
  position : Vec2
  scaleX : ℚ
  scaleY : ℚ
  actions : List Action
deriving DecidableEq, Repr

namespace Label

/-- Embeds `Label::setString`. -/
def setString (t : String) (l : Label) : Label := { l with string := t }

/-- Embeds `Label::setTextColor`. -/
def setTextColor (c : Color4B) (l : Label) : Label := { l with textColor := c }

/-- Embeds `Node::setAnchorPoint`. -/
def setAnchorPoint (v : Vec2) (l : Label) : Label := { l with anchorPoint := v }

/-- Embeds `Node::setPosition(float, float)`. -/
def setPosition (px py : ℚ) (l : Label) : Label := { l with position := ⟨px, py⟩ }

/-- Embeds `Node::setScaleX`. -/
def setScaleX (k : ℚ) (l : Label) : Label := { l with scaleX := k }

/-- Embeds `Node::setScaleY`. -/
def setScaleY (k : ℚ) (l : Label) : Label := { l with scaleY := k }

/-- Embeds `Node::stopAllActions`. -/
def stopAllActions (l : Label) : Label := { l with actions := [] }

/-- Embeds `Node::runAction`. -/
def runAction (a : Action) (l : Label) : Label := { l with actions := l.actions ++ [a] }

end Label

/-- Identity of a node kept among the protected children. -/
inductive NodeRef where
  | normalRenderer
  | clickedRenderer
  | disabledRenderer
  | label (ptr : Nat)
deriving DecidableEq, Repr

/-- One entry of `_protectedChildren`: the node with the z order and tag it was added with. -/
structure ProtectedChild where
  node : NodeRef
  zOrder : Int
  tag : Int
deriving DecidableEq, Repr

/-! The button -/

/-- Embeds `NORMAL_RENDERER_Z`. -/
def NORMAL_RENDERER_Z : Int := -2
/-- Embeds `PRESSED_RENDERER_Z`. -/
def PRESSED_RENDERER_Z : Int := -2
/-- Embeds `DISABLED_RENDERER_Z`. -/
def DISABLED_RENDERER_Z : Int := -2
/-- Embeds `TITLE_RENDERER_Z`. -/
def TITLE_RENDERER_Z : Int := -1
/-- Embeds `ZOOM_ACTION_TIME_STEP`: `0.05f`, the binary32 value nearest to 0.05. -/
def ZOOM_ACTION_TIME_STEP : ℚ := 13421773 / 268435456

/-- Members of `Button`: first those inherited from `Node`/`ProtectedNode`/`Widget` that
UIButton.cpp reads or writes, then the button's own, in the order of the constructor's
initialiser list. -/
structure Button where
  _contentSize : Vec2
  _customSize : Vec2
  _ignoreSize : Bool
  _unifySize : Bool
  _bright : Bool
  _brightStyle : BrightStyle
  _protectedChildren : List ProtectedChild
  _buttonNormalRenderer : Scale9Sprite
  _buttonClickedRenderer : Scale9Sprite
  _buttonDisabledRenderer : Scale9Sprite
  _titleRenderer : Option Label
  _zoomScale : ℚ
  _prevIgnoreSize : Bool
  _scale9Enabled : Bool
  _pressedActionEnabled : Bool
  _capInsetsNormal : Rect
  _capInsetsPressed : Rect
  _capInsetsDisabled : Rect
  _normalTextureSize : Vec2
  _pressedTextureSize : Vec2
  _disabledTextureSize : Vec2
  _normalTextureLoaded : Bool
  _pressedTextureLoaded : Bool
  _disabledTextureLoaded : Bool
  _normalTextureAdaptDirty : Bool
  _pressedTextureAdaptDirty : Bool
  _disabledTextureAdaptDirty : Bool
  _normalFileName : String
  _clickedFileName : String
  _disabledFileName : String
  _normalTexType : TextureResType
  _pressedTexType : TextureResType
  _disabledTexType : TextureResType
  _fontName : String
deriving DecidableEq, Repr

/-- The argument of `copySpecialProperties`: a `Widget*` that `dynamic_cast<Button*>` either
recognises as a button or not (another widget class, or `nullptr`). -/
inductive WidgetPtr where
  | button (b : Button)
  | other
deriving DecidableEq, Repr

/-- What UIButton.cpp calls but does not define. Each field is named after the C++ function
it stands for; methods of the `Widget` base class act on the whole button because they call
back into its virtual methods. -/
structure Engine where
  /-- The macro `CC_DEFAULT_FONT_LABEL_SIZE` -/
  CC_DEFAULT_FONT_LABEL_SIZE : ℚ
  /-- Stands for `Vec2::equals`. -/
  Vec2_equals : Vec2 → Vec2 → Bool
  /-- Stands for `Helper::restrictCapInsetRect(capInsets, textureSize)`. -/
  Helper_restrictCapInsetRect : Rect → Vec2 → Rect
  /-- Stands for `FileUtils::getInstance()->isFileExist`. -/
  FileUtils_isFileExist : String → Bool
  /-- Stands for `Scale9Sprite::create()`. -/
  Scale9Sprite_create : Scale9Sprite
  /-- Stands for `Scale9Sprite::initWithFile`. -/
  Scale9Sprite_initWithFile : String → Scale9Sprite → Scale9Sprite
  /-- Stands for `Scale9Sprite::initWithSpriteFrameName`. -/
  Scale9Sprite_initWithSpriteFrameName : String → Scale9Sprite → Scale9Sprite
  /-- Stands for `Scale9Sprite::initWithSpriteFrame`. -/
  Scale9Sprite_initWithSpriteFrame : SpriteFramePtr → Scale9Sprite → Scale9Sprite
  /-- Stands for `Scale9Sprite::resetRender`. -/
  Scale9Sprite_resetRender : Scale9Sprite → Scale9Sprite
  /-- Stands for `source->copyTo(destination)`: the new state of the destination. -/
  Scale9Sprite_copyTo : Scale9Sprite → Scale9Sprite → Scale9Sprite
  /-- Stands for `Scale9Sprite::getContentSize`. -/
  Scale9Sprite_getContentSize : Scale9Sprite → Vec2
  /-- Stands for `Label::create()`. -/
  Label_create : Label
  /-- Stands for `Label::getContentSize`. -/
  Label_getContentSize : Label → Vec2
  /-- Stands for `Label::getRenderingFontSize`. -/
  Label_getRenderingFontSize : Label → ℚ
  /-- Stands for `Label::setTTFConfig`. -/
  Label_setTTFConfig : TTFConfig → Label → Label
  /-- Stands for `Label::setSystemFontSize`. -/
  Label_setSystemFontSize : ℚ → Label → Label
  /-- Stands for `Label::setBMFontFilePath`. -/
  Label_setBMFontFilePath : String → Label → Label
  /-- Stands for `Label::setSystemFontName`. -/
  Label_setSystemFontName : String → Label → Label
  /-- Stands for `Widget::ignoreContentAdaptWithSize`. -/
  Widget_ignoreContentAdaptWithSize : Bool → Button → Button
  /-- Stands for `Widget::setContentSize` (reached as `this->setContentSize`). -/
  Widget_setContentSize : Vec2 → Button → Button
  /-- Stands for `Widget::onSizeChanged`. -/
  Widget_onSizeChanged : Button → Button
  /-- Stands for `Widget::updateContentSizeWithTextureSize`. -/
  Widget_updateContentSizeWithTextureSize : Vec2 → Button → Button
  /-- Stands for `Widget::setBright`. -/
  Widget_setBright : Bool → Button → Button
  /-- Stands for `Node::updateChildrenDisplayedRGBA`. -/
  Node_updateChildrenDisplayedRGBA : Button → Button

/-- The base-class calls of the engine leave the observation `g` of a button as it was.
The `Widget` methods reach back into the button only through its virtual methods
(`onSizeChanged`, `getVirtualRendererSize`, the press-state handlers), so the real toolkit
keeps every member these do not write. -/
structure Engine.Keeps (E : Engine) {α : Type} (g : Button → α) : Prop where
  ignoreContentAdaptWithSize : ∀ v b, g (E.Widget_ignoreContentAdaptWithSize v b) = g b
  setContentSize : ∀ s b, g (E.Widget_setContentSize s b) = g b
  onSizeChanged : ∀ b, g (E.Widget_onSizeChanged b) = g b
  updateContentSizeWithTextureSize :
    ∀ s b, g (E.Widget_updateContentSizeWithTextureSize s b) = g b
  setBright : ∀ v b, g (E.Widget_setBright v b) = g b
  updateChildrenDisplayedRGBA : ∀ b, g (E.Node_updateChildrenDisplayedRGBA b) = g b

namespace Button

/-! Access to the member nodes -/

/-- A call `_buttonNormalRenderer->f(...)`. -/
def onNormal (f : Scale9Sprite → Scale9Sprite) (b : Button) : Button :=
  { b with _buttonNormalRenderer := f b._buttonNormalRenderer }

/-- A call `_buttonClickedRenderer->f(...)`. -/
def onClicked (f : Scale9Sprite → Scale9Sprite) (b : Button) : Button :=
  { b with _buttonClickedRenderer := f b._buttonClickedRenderer }

/-- A call `_buttonDisabledRenderer->f(...)`. -/
def onDisabled (f : Scale9Sprite → Scale9Sprite) (b : Button) : Button :=
  { b with _buttonDisabledRenderer := f b._buttonDisabledRenderer }

/-- A call `_titleRenderer->f(...)` inside a check `nullptr != _titleRenderer`. -/
def onTitle (f : Label → Label) (b : Button) : Button :=
  { b with _titleRenderer := b._titleRenderer.map f }

/-- A call `_titleRenderer->f(...)` with no null check before it: a fault on `nullptr`. -/
def derefTitle (f : Label → Label) (b : Button) : Option Button :=
  match b._titleRenderer with
  | none => none
  | some _ => some (onTitle f b)

/-- Embeds `ProtectedNode::addProtectedChild(child, zOrder, tag)`. -/
def addProtectedChild (child : NodeRef) (zOrder tag : Int) (b : Button) : Button :=
  { b with _protectedChildren := b._protectedChildren ++ [⟨child, zOrder, tag⟩] }

/-- Embeds `ProtectedNode::setContentSize`, the plain setter of `_contentSize`. -/
def ProtectedNode_setContentSize (s : Vec2) (b : Button) : Button :=
  { b with _contentSize := s }

/-! Construction -/

/-- The state after `Button::Button()` and `Button::initRenderer()`; the inherited members
are arguments, their initial values being set by the base classes. -/
def initRenderer (E : Engine) (contentSize customSize : Vec2) (ignoreSize unifySize bright : Bool)
    (brightStyle : BrightStyle) : Button :=
  { _contentSize := contentSize
    _customSize := customSize
    _ignoreSize := ignoreSize
    _unifySize := unifySize
    _bright := bright
    _brightStyle := brightStyle
    _protectedChildren :=
      [⟨.normalRenderer, NORMAL_RENDERER_Z, -1⟩, ⟨.clickedRenderer, PRESSED_RENDERER_Z, -1⟩,
        ⟨.disabledRenderer, DISABLED_RENDERER_Z, -1⟩]
    _buttonNormalRenderer := E.Scale9Sprite_create.setRenderingType .SIMPLE
    _buttonClickedRenderer := E.Scale9Sprite_create.setRenderingType .SIMPLE
    _buttonDisabledRenderer := E.Scale9Sprite_create.setRenderingType .SIMPLE
    _titleRenderer := none
    _zoomScale := 13421773 / 134217728
    _prevIgnoreSize := true
    _scale9Enabled := false
    _pressedActionEnabled := false
    _capInsetsNormal := Rect.ZERO
    _capInsetsPressed := Rect.ZERO
    _capInsetsDisabled := Rect.ZERO
    _normalTextureSize := contentSize
    _pressedTextureSize := contentSize
    _disabledTextureSize := contentSize
    _normalTextureLoaded := false
    _pressedTextureLoaded := false
    _disabledTextureLoaded := false
    _normalTextureAdaptDirty := true
    _pressedTextureAdaptDirty := true
    _disabledTextureAdaptDirty := true
    _normalFileName := ""
    _clickedFileName := ""
    _disabledFileName := ""
    _normalTexType := .LOCAL
    _pressedTexType := .LOCAL
    _disabledTexType := .LOCAL
    _fontName := "" }

/-! Title renderer -/

/-- Embeds `Button::createTitleRenderer`. -/
def createTitleRenderer (E : Engine) (b : Button) : Button :=
  let l := E.Label_create.setAnchorPoint Vec2.ANCHOR_MIDDLE
  addProtectedChild (.label l.ptr) TITLE_RENDERER_Z (-1) { b with _titleRenderer := some l }

/-- Embeds `Button::createTitleRendererIfNull`: the returned flag and the new state. -/
def createTitleRendererIfNull (E : Engine) (b : Button) : Bool × Button :=
  if b._titleRenderer.isNone then (true, createTitleRenderer E b) else (false, b)

/-- Embeds `Button::updateTitleLocation`. -/
def updateTitleLocation (b : Button) : Option Button :=
  derefTitle (Label.setPosition (b._contentSize.width * (1 / 2)) (b._contentSize.height * (1 / 2))) b

/-- Embeds `Button::setTitleLabel`; the reference counting of `CC_SAFE_RELEASE`/`CC_SAFE_RETAIN`
is not represented. Pointers are compared by address. -/
def setTitleLabel (label : Option Label) (b : Button) : Option Button :=
  if b._titleRenderer.map Label.ptr ≠ label.map Label.ptr then
    match label with
    | none => none
    | some l =>
      updateTitleLocation
        (addProtectedChild (.label l.ptr) TITLE_RENDERER_Z (-1) { b with _titleRenderer := label })
  else some b

/-- Embeds `Button::getTitleLabel`: the pointer held, `none` for `nullptr`. -/
def getTitleLabel (b : Button) : Option Label := b._titleRenderer

/-- Embeds `Button::getTitleRenderer`. -/
def getTitleRenderer (b : Button) : Option Label := b._titleRenderer

/-! Sizes -/

/-- Embeds `Button::getNormalSize`; `_buttonNormalRenderer` is never null in a `Button` state. -/
def getNormalSize (E : Engine) (b : Button) : Vec2 :=
  let titleSize : Vec2 :=
    match b._titleRenderer with
    | some l => E.Label_getContentSize l
    | none => ⟨0, 0⟩
  let imageSize : Vec2 := E.Scale9Sprite_getContentSize b._buttonNormalRenderer
  let width := if titleSize.width > imageSize.width then titleSize.width else imageSize.width
  let height := if titleSize.height > imageSize.height then titleSize.height else imageSize.height
  ⟨width, height⟩

/-- Embeds `Button::getNormalTextureSize`. -/
def getNormalTextureSize (b : Button) : Vec2 := b._normalTextureSize

/-- Embeds `Button::getVirtualRendererSize`. -/
def getVirtualRendererSize (E : Engine) (b : Button) : Vec2 :=
  if b._unifySize then getNormalSize E b
  else
    match b._titleRenderer with
    | some l =>
      let titleSize := E.Label_getContentSize l
      if !b._normalTextureLoaded && !l.string.isEmpty then titleSize else b._normalTextureSize
    | none => b._normalTextureSize

/-- Embeds `Button::onSizeChanged`; inside the null check `updateTitleLocation` cannot fault. -/
def onSizeChanged (E : Engine) (b : Button) : Button :=
  let b := E.Widget_onSizeChanged b
  let b := if b._titleRenderer.isSome then (updateTitleLocation b).getD b else b
  { b with
    _normalTextureAdaptDirty := true
    _pressedTextureAdaptDirty := true
    _disabledTextureAdaptDirty := true }

/-- Embeds `Button::updateContentSize`. -/
def updateContentSize (E : Engine) (b : Button) : Button :=
  if b._unifySize then
    let b :=
      if b._scale9Enabled then ProtectedNode_setContentSize b._customSize b
      else ProtectedNode_setContentSize (getNormalSize E b) b
    onSizeChanged E b
  else if b._ignoreSize then E.Widget_setContentSize (getVirtualRendererSize E b) b
  else b

/-- Embeds `Button::ignoreContentAdaptWithSize`. -/
def ignoreContentAdaptWithSize (E : Engine) (ignore : Bool) (b : Button) : Button :=
  if b._unifySize then updateContentSize E b
  else if !b._scale9Enabled || (b._scale9Enabled && !ignore) then
    { E.Widget_ignoreContentAdaptWithSize ignore b with _prevIgnoreSize := ignore }
  else b

/-- Embeds `Button::normalTextureScaleChangedWithSize`. -/
def normalTextureScaleChangedWithSize (b : Button) : Button :=
  let b := b.onNormal (Scale9Sprite.setPreferredSize b._contentSize)
  b.onNormal (Scale9Sprite.setPosition (b._contentSize.width / 2) (b._contentSize.height / 2))

/-- Embeds `Button::pressedTextureScaleChangedWithSize`. -/
def pressedTextureScaleChangedWithSize (b : Button) : Button :=
  let b := b.onClicked (Scale9Sprite.setPreferredSize b._contentSize)
  b.onClicked (Scale9Sprite.setPosition (b._contentSize.width / 2) (b._contentSize.height / 2))

/-- Embeds `Button::disabledTextureScaleChangedWithSize`. -/
def disabledTextureScaleChangedWithSize (b : Button) : Button :=
  let b := b.onDisabled (Scale9Sprite.setPreferredSize b._contentSize)
  b.onDisabled (Scale9Sprite.setPosition (b._contentSize.width / 2) (b._contentSize.height / 2))

/-- Embeds `Button::adaptRenderers`. -/
def adaptRenderers (b : Button) : Button :=
  let b :=
    if b._normalTextureAdaptDirty then
      { normalTextureScaleChangedWithSize b with _normalTextureAdaptDirty := false }
    else b
  let b :=
    if b._pressedTextureAdaptDirty then
      { pressedTextureScaleChangedWithSize b with _pressedTextureAdaptDirty := false }
    else b
  if b._disabledTextureAdaptDirty then
    { disabledTextureScaleChangedWithSize b with _disabledTextureAdaptDirty := false }
  else b

/-! Cap insets -/

/-- Embeds `Button::setCapInsetsNormalRenderer`. -/
def setCapInsetsNormalRenderer (E : Engine) (capInsets : Rect) (b : Button) : Button :=
  let b := { b with _capInsetsNormal := E.Helper_restrictCapInsetRect capInsets b._normalTextureSize }
  if !b._scale9Enabled then b
  else b.onNormal (Scale9Sprite.setCapInsets b._capInsetsNormal)

/-- Embeds `Button::setCapInsetsPressedRenderer`. -/
def setCapInsetsPressedRenderer (E : Engine) (capInsets : Rect) (b : Button) : Button :=
  let b :=
    { b with _capInsetsPressed := E.Helper_restrictCapInsetRect capInsets b._pressedTextureSize }
  if !b._scale9Enabled then b
  else b.onClicked (Scale9Sprite.setCapInsets b._capInsetsPressed)

/-- Embeds `Button::setCapInsetsDisabledRenderer`. -/
def setCapInsetsDisabledRenderer (E : Engine) (capInsets : Rect) (b : Button) : Button :=
  let b :=
    { b with _capInsetsDisabled := E.Helper_restrictCapInsetRect capInsets b._disabledTextureSize }
  if !b._scale9Enabled then b
  else b.onDisabled (Scale9Sprite.setCapInsets b._capInsetsDisabled)

/-- Embeds `Button::setCapInsets`. -/
def setCapInsets (E : Engine) (capInsets : Rect) (b : Button) : Button :=
  let b := setCapInsetsNormalRenderer E capInsets b
  let b := setCapInsetsPressedRenderer E capInsets b
  setCapInsetsDisabledRenderer E capInsets b

/-- Embeds `Button::getCapInsetsNormalRenderer`. -/
def getCapInsetsNormalRenderer (b : Button) : Rect := b._capInsetsNormal

/-- Embeds `Button::getCapInsetsPressedRenderer`. -/
def getCapInsetsPressedRenderer (b : Button) : Rect := b._capInsetsPressed

/-- Embeds `Button::getCapInsetsDisabledRenderer`. -/
def getCapInsetsDisabledRenderer (b : Button) : Rect := b._capInsetsDisabled

/-! Press states -/

/-- Embeds `Button::onPressStateChangedToNormal`. -/
def onPressStateChangedToNormal (b : Button) : Button :=
  let b := b.onNormal (Scale9Sprite.setVisible true)
  let b := b.onClicked (Scale9Sprite.setVisible false)
  let b := b.onDisabled (Scale9Sprite.setVisible false)
  let b := b.onNormal (Scale9Sprite.setState .NORMAL)
  if b._pressedTextureLoaded then
    if b._pressedActionEnabled then
      let b := b.onNormal Scale9Sprite.stopAllActions
      let b := b.onClicked Scale9Sprite.stopAllActions
      let b := b.onNormal (Scale9Sprite.setScale 1)
      let b := b.onClicked (Scale9Sprite.setScale 1)
      if b._titleRenderer.isSome then
        let b := b.onTitle Label.stopAllActions
        if b._unifySize then
          let zoomTitleAction := Action.scaleTo ZOOM_ACTION_TIME_STEP 1 1
          b.onTitle (Label.runAction zoomTitleAction)
        else
          let b := b.onTitle (Label.setScaleX 1)
          b.onTitle (Label.setScaleY 1)
      else b
    else b
  else
    let b := b.onNormal Scale9Sprite.stopAllActions
    let b := b.onNormal (Scale9Sprite.setScale 1)
    if b._titleRenderer.isSome then
      let b := b.onTitle Label.stopAllActions
      let b := b.onTitle (Label.setScaleX 1)
      b.onTitle (Label.setScaleY 1)
    else b

/-- Embeds `Button::onPressStateChangedToPressed`; `1.0f + _zoomScale` is the rounded
`float` sum. -/
def onPressStateChangedToPressed (b : Button) : Button :=
  let b := b.onNormal (Scale9Sprite.setState .NORMAL)
  if b._pressedTextureLoaded then
    let b := b.onNormal (Scale9Sprite.setVisible false)
    let b := b.onClicked (Scale9Sprite.setVisible true)
    let b := b.onDisabled (Scale9Sprite.setVisible false)
    if b._pressedActionEnabled then
      let b := b.onNormal Scale9Sprite.stopAllActions
      let b := b.onClicked Scale9Sprite.stopAllActions
      let zoomAction :=
        Action.scaleTo ZOOM_ACTION_TIME_STEP (Float32.add 1 b._zoomScale)
          (Float32.add 1 b._zoomScale)
      let b := b.onClicked (Scale9Sprite.runAction zoomAction)
      let b := b.onNormal
        (Scale9Sprite.setScaleXY (Float32.add 1 b._zoomScale) (Float32.add 1 b._zoomScale))
      if b._titleRenderer.isSome then
        let b := b.onTitle Label.stopAllActions
        let zoomTitleAction :=
          Action.scaleTo ZOOM_ACTION_TIME_STEP (Float32.add 1 b._zoomScale)
            (Float32.add 1 b._zoomScale)
        b.onTitle (Label.runAction zoomTitleAction)
      else b
    else b
  else
    let b := b.onNormal (Scale9Sprite.setVisible true)
    let b := b.onClicked (Scale9Sprite.setVisible true)
    let b := b.onDisabled (Scale9Sprite.setVisible false)
    let b := b.onNormal Scale9Sprite.stopAllActions
    let b := b.onNormal
      (Scale9Sprite.setScaleXY (Float32.add 1 b._zoomScale) (Float32.add 1 b._zoomScale))
    if b._titleRenderer.isSome then
      let b := b.onTitle Label.stopAllActions
      let b := b.onTitle (Label.setScaleX (Float32.add 1 b._zoomScale))
      b.onTitle (Label.setScaleY (Float32.add 1 b._zoomScale))
    else b

/-- Embeds `Button::onPressStateChangedToDisabled`. -/
def onPressStateChangedToDisabled (b : Button) : Button :=
  let b :=
    if !b._disabledTextureLoaded then
      if b._normalTextureLoaded then b.onNormal (Scale9Sprite.setState .GRAY) else b
    else
      let b := b.onNormal (Scale9Sprite.setVisible false)
      b.onDisabled (Scale9Sprite.setVisible true)
  let b := b.onClicked (Scale9Sprite.setVisible false)
  let b := b.onNormal (Scale9Sprite.setScale 1)
  b.onClicked (Scale9Sprite.setScale 1)

/-! Scale9 mode -/

/-- Embeds `Button::setScale9Enabled`. -/
def setScale9Enabled (E : Engine) (able : Bool) (b : Button) : Button :=
  if b._scale9Enabled = able then b
  else
    let b := { b with _scale9Enabled := able }
    let b :=
      if b._scale9Enabled then
        let b := b.onNormal (Scale9Sprite.setRenderingType .SLICE)
        let b := b.onClicked (Scale9Sprite.setRenderingType .SLICE)
        b.onDisabled (Scale9Sprite.setRenderingType .SLICE)
      else
        let b := b.onNormal (Scale9Sprite.setRenderingType .SIMPLE)
        let b := b.onClicked (Scale9Sprite.setRenderingType .SIMPLE)
        b.onDisabled (Scale9Sprite.setRenderingType .SIMPLE)
    let b :=
      if b._scale9Enabled then
        let ignoreBefore := b._ignoreSize
        let b := ignoreContentAdaptWithSize E false b
        { b with _prevIgnoreSize := ignoreBefore }
      else ignoreContentAdaptWithSize E b._prevIgnoreSize b
    let b := setCapInsetsNormalRenderer E b._capInsetsNormal b
    let b := setCapInsetsPressedRenderer E b._capInsetsPressed b
    let b := setCapInsetsDisabledRenderer E b._capInsetsDisabled b
    let b := { b with _brightStyle := .NONE }
    let b := E.Widget_setBright b._bright b
    { b with
      _normalTextureAdaptDirty := true
      _pressedTextureAdaptDirty := true
      _disabledTextureAdaptDirty := true }

/-- Embeds `Button::isScale9Enabled`. -/
def isScale9Enabled (b : Button) : Bool := b._scale9Enabled

/-! Textures -/

/-- Embeds `Button::setupNormalTexture`. -/
def setupNormalTexture (E : Engine) (textureLoaded : Bool) (b : Button) : Button :=
  let b := { b with _normalTextureSize := E.Scale9Sprite_getContentSize b._buttonNormalRenderer }
  let b := E.Node_updateChildrenDisplayedRGBA b
  let b :=
    if b._unifySize then
      if !b._scale9Enabled then E.Widget_updateContentSizeWithTextureSize (getNormalSize E b) b
      else b
    else E.Widget_updateContentSizeWithTextureSize b._normalTextureSize b
  { b with _normalTextureLoaded := textureLoaded, _normalTextureAdaptDirty := true }

/-- Embeds `Button::loadTextureNormal(std::string_view, TextureResType)`. -/
def loadTextureNormal (E : Engine) (normal : String) (texType : TextureResType) (b : Button) :
    Button :=
  let b := { b with _normalFileName := normal, _normalTexType := texType }
  let (b, textureLoaded) :=
    if normal.isEmpty then (b.onNormal E.Scale9Sprite_resetRender, false)
    else
      match texType with
      | .LOCAL => (b.onNormal (E.Scale9Sprite_initWithFile normal), true)
      | .PLIST => (b.onNormal (E.Scale9Sprite_initWithSpriteFrameName normal), true)
  let b :=
    if !b._ignoreSize && E.Vec2_equals b._customSize Vec2.ZERO then
      { b with _customSize := E.Scale9Sprite_getContentSize b._buttonNormalRenderer }
    else b
  setupNormalTexture E textureLoaded b

/-- Embeds `Button::loadTextureNormal(SpriteFrame*)`. -/
def loadTextureNormalSpriteFrame (E : Engine) (normalSpriteFrame : SpriteFramePtr) (b : Button) :
    Button :=
  let b := b.onNormal (E.Scale9Sprite_initWithSpriteFrame normalSpriteFrame)
  setupNormalTexture E normalSpriteFrame.isSome b

/-- Embeds `Button::setupPressedTexture`. -/
def setupPressedTexture (E : Engine) (textureLoaded : Bool) (b : Button) : Button :=
  let b := { b with _pressedTextureSize := E.Scale9Sprite_getContentSize b._buttonClickedRenderer }
  let b := E.Node_updateChildrenDisplayedRGBA b
  { b with _pressedTextureLoaded := textureLoaded, _pressedTextureAdaptDirty := true }

/-- Embeds `Button::loadTexturePressed(std::string_view, TextureResType)`. -/
def loadTexturePressed (E : Engine) (selected : String) (texType : TextureResType) (b : Button) :
    Button :=
  let b := { b with _clickedFileName := selected, _pressedTexType := texType }
  let (b, textureLoaded) :=
    if selected.isEmpty then (b.onClicked E.Scale9Sprite_resetRender, false)
    else
      match texType with
      | .LOCAL => (b.onClicked (E.Scale9Sprite_initWithFile selected), true)
      | .PLIST => (b.onClicked (E.Scale9Sprite_initWithSpriteFrameName selected), true)
  setupPressedTexture E textureLoaded b

/-- Embeds `Button::loadTexturePressed(SpriteFrame*)`. -/
def loadTexturePressedSpriteFrame (E : Engine) (pressedSpriteFrame : SpriteFramePtr)
    (b : Button) : Button :=
  let b := b.onClicked (E.Scale9Sprite_initWithSpriteFrame pressedSpriteFrame)
  setupPressedTexture E pressedSpriteFrame.isSome b

/-- Embeds `Button::setupDisabledTexture`. -/
def setupDisabledTexture (E : Engine) (textureLoaded : Bool) (b : Button) : Button :=
  let b :=
    { b with _disabledTextureSize := E.Scale9Sprite_getContentSize b._buttonDisabledRenderer }
  let b := E.Node_updateChildrenDisplayedRGBA b
  { b with _disabledTextureLoaded := textureLoaded, _disabledTextureAdaptDirty := true }

/-- Embeds `Button::loadTextureDisabled(std::string_view, TextureResType)`. -/
def loadTextureDisabled (E : Engine) (disabled : String) (texType : TextureResType) (b : Button) :
    Button :=
  let b := { b with _disabledFileName := disabled, _disabledTexType := texType }
  let (b, textureLoaded) :=
    if disabled.isEmpty then (b.onDisabled E.Scale9Sprite_resetRender, false)
    else
      match texType with
      | .LOCAL => (b.onDisabled (E.Scale9Sprite_initWithFile disabled), true)
      | .PLIST => (b.onDisabled (E.Scale9Sprite_initWithSpriteFrameName disabled), true)
  setupDisabledTexture E textureLoaded b

/-- Embeds `Button::loadTextureDisabled(SpriteFrame*)`. -/
def loadTextureDisabledSpriteFrame (E : Engine) (disabledSpriteFrame : SpriteFramePtr)
    (b : Button) : Button :=
  let b := b.onDisabled (E.Scale9Sprite_initWithSpriteFrame disabledSpriteFrame)
  setupDisabledTexture E disabledSpriteFrame.isSome b

/-- Embeds `Button::loadTextures`. -/
def loadTextures (E : Engine) (normal selected disabled : String) (texType : TextureResType)
    (b : Button) : Button :=
  let b := loadTextureNormal E normal texType b
  let b := loadTexturePressed E selected texType b
  loadTextureDisabled E disabled texType b

/-- Embeds `Button::getNormalFile`. -/
def getNormalFile (b : Button) : ResourceData :=
  { type := b._normalTexType.toInt, file := b._normalFileName }

/-- Embeds `Button::getPressedFile`. -/
def getPressedFile (b : Button) : ResourceData :=
  { type := b._pressedTexType.toInt, file := b._clickedFileName }

/-- Embeds `Button::getDisabledFile`. -/
def getDisabledFile (b : Button) : ResourceData :=
  { type := b._disabledTexType.toInt, file := b._disabledFileName }

/-- Embeds `Button::resetNormalRender`. -/
def resetNormalRender (E : Engine) (b : Button) : Button :=
  let b :=
    { b with
      _normalFileName := ""
      _normalTexType := .LOCAL
      _normalTextureSize := ⟨0, 0⟩
      _normalTextureLoaded := false
      _normalTextureAdaptDirty := false }
  b.onNormal E.Scale9Sprite_resetRender

/-- Embeds `Button::resetPressedRender`. -/
def resetPressedRender (E : Engine) (b : Button) : Button :=
  let b :=
    { b with
      _clickedFileName := ""
      _pressedTexType := .LOCAL
      _pressedTextureSize := ⟨0, 0⟩
      _pressedTextureLoaded := false
      _pressedTextureAdaptDirty := false }
  b.onClicked E.Scale9Sprite_resetRender

/-- Embeds `Button::resetDisabledRender`. -/
def resetDisabledRender (E : Engine) (b : Button) : Button :=
  let b :=
    { b with
      _disabledFileName := ""
      _disabledTexType := .LOCAL
      _disabledTextureSize := ⟨0, 0⟩
      _disabledTextureLoaded := false
      _disabledTextureAdaptDirty := false }
  b.onDisabled E.Scale9Sprite_resetRender

/-! Title text, colour and font -/

/-- Embeds `Button::setPressedActionEnabled`. -/
def setPressedActionEnabled (enabled : Bool) (b : Button) : Button :=
  { b with _pressedActionEnabled := enabled }

/-- Embeds `Button::setZoomScale`. -/
def setZoomScale (scale : ℚ) (b : Button) : Button := { b with _zoomScale := scale }

/-- Embeds `Button::getZoomScale`. -/
def getZoomScale (b : Button) : ℚ := b._zoomScale

/-- Embeds `Button::getTitleText`. -/
def getTitleText (b : Button) : String :=
  match b._titleRenderer with
  | none => ""
  | some l => l.string

/-- Embeds `Button::getTitleColor`. -/
def getTitleColor (b : Button) : Color3B :=
  match b._titleRenderer with
  | none => Color3B.WHITE
  | some l => Color3B.ofColor4B l.textColor

/-- Embeds `Button::getTitleFontSize`. -/
def getTitleFontSize (E : Engine) (b : Button) : ℚ :=
  match b._titleRenderer with
  | some l => E.Label_getRenderingFontSize l
  | none => -1

/-- Embeds `Button::getTitleFontName`. -/
def getTitleFontName (b : Button) : String :=
  match b._titleRenderer with
  | some l =>
    let titleLabelType := l.labelType
    if titleLabelType = .STRING_TEXTURE then l.systemFontName
    else if titleLabelType = .TTF then l.ttfConfig.fontFilePath
    else if titleLabelType = .BMFONT then l.bmFontFilePath
    else ""
  | none => ""

/-- Embeds `Button::setTitleColor`. -/
def setTitleColor (E : Engine) (color : Color3B) (b : Button) : Option Button :=
  let b := (createTitleRendererIfNull E b).2
  derefTitle (Label.setTextColor (Color4B.ofColor3B color)) b

/-- Embeds `Button::setTitleFontSize`. -/
def setTitleFontSize (E : Engine) (size : ℚ) (b : Button) : Option Button :=
  let b := (createTitleRendererIfNull E b).2
  match b._titleRenderer with
  | none => none
  | some l =>
    let titleLabelType := l.labelType
    let b :=
      if titleLabelType = .TTF then
        let config := l.ttfConfig
        let config := { config with fontSize := size }
        { b with _titleRenderer := some (E.Label_setTTFConfig config l) }
      else if titleLabelType = .STRING_TEXTURE then
        { b with _titleRenderer := some (E.Label_setSystemFontSize size l) }
      else b
    if titleLabelType ≠ .BMFONT then some (updateContentSize E b) else some b

/-- Embeds `std::string::find(needle) != std::string::npos` on the characters of a string. -/
def containsSubstring : List Char → List Char → Bool
  | [], needle => needle.isEmpty
  | c :: cs, needle => needle.isPrefixOf (c :: cs) || containsSubstring cs needle

/-- Embeds `Button::setTitleFontName`. -/
def setTitleFontName (E : Engine) (fontName : String) (b : Button) : Option Button :=
  let b := (createTitleRendererIfNull E b).2
  match b._titleRenderer with
  | none => none
  | some l =>
    let l :=
      if E.FileUtils_isFileExist fontName then
        let lowerCasedFontName := fontName.map Char.toLower
        if containsSubstring lowerCasedFontName.toList ".fnt".toList then
          E.Label_setBMFontFilePath fontName l
        else
          let config := l.ttfConfig
          let config := { config with fontFilePath := fontName }
          E.Label_setTTFConfig config l
      else E.Label_setSystemFontName fontName l
    let b := { b with _titleRenderer := some l, _fontName := fontName }
    some (updateContentSize E b)

/-- Embeds `Button::setTitleText`. -/
def setTitleText (E : Engine) (text : String) (b : Button) : Option Button :=
  if text = getTitleText b then some b
  else do
    let b := (createTitleRendererIfNull E b).2
    let b ← if getTitleFontSize E b ≤ 0 then setTitleFontSize E E.CC_DEFAULT_FONT_LABEL_SIZE b
      else some b
    let b ← derefTitle (Label.setString text) b
    let b := updateContentSize E b
    updateTitleLocation b

/-! Cloning -/

/-- Embeds `Button::copySpecialProperties`; `this` is `b`, a different object from `widget`, which
is only read (`Scale9Sprite::copyTo` and the getters are `const`). -/
def copySpecialProperties (E : Engine) (widget : WidgetPtr) (b : Button) : Option Button :=
  match widget with
  | .other => some b
  | .button button => do
    let b := { b with _prevIgnoreSize := button._prevIgnoreSize }
    let b := setScale9Enabled E button._scale9Enabled b
    let b := b.onNormal (E.Scale9Sprite_copyTo button._buttonNormalRenderer)
    let b :=
      { b with
        _normalFileName := button._normalFileName
        _normalTextureSize := button._normalTextureSize
        _normalTexType := button._normalTexType
        _normalTextureLoaded := button._normalTextureLoaded }
    let b := setupNormalTexture E (!b._normalFileName.isEmpty) b
    let b := b.onClicked (E.Scale9Sprite_copyTo button._buttonClickedRenderer)
    let b :=
      { b with
        _clickedFileName := button._clickedFileName
        _pressedTextureSize := button._pressedTextureSize
        _pressedTexType := button._pressedTexType
        _pressedTextureLoaded := button._pressedTextureLoaded }
    let b := setupPressedTexture E (!b._clickedFileName.isEmpty) b
    let b := b.onDisabled (E.Scale9Sprite_copyTo button._buttonDisabledRenderer)
    let b :=
      { b with
        _disabledFileName := button._disabledFileName
        _disabledTextureSize := button._disabledTextureSize
        _disabledTexType := button._disabledTexType
        _disabledTextureLoaded := button._disabledTextureLoaded }
    let b := setupDisabledTexture E (!b._disabledFileName.isEmpty) b
    let b := setCapInsetsNormalRenderer E button._capInsetsNormal b
    let b := setCapInsetsPressedRenderer E button._capInsetsPressed b
    let b := setCapInsetsDisabledRenderer E button._capInsetsDisabled b
    let b ←
      if (getTitleRenderer button).isSome then do
        let b ← setTitleText E (getTitleText button) b
        let b ← setTitleFontName E (getTitleFontName button) b
        let b ← setTitleFontSize E (getTitleFontSize E button) b
        setTitleColor E (getTitleColor button) b
      else some b
    let b := setPressedActionEnabled button._pressedActionEnabled b
    some (setZoomScale button._zoomScale b)

/-! Observations used in the statements -/

/-- The background renderers that are visible, in the order normal, pressed, disabled. -/
def visibleBackgrounds (b : Button) : List NodeRef :=
  (if b._buttonNormalRenderer.visible then [NodeRef.normalRenderer] else []) ++
    (if b._buttonClickedRenderer.visible then [NodeRef.clickedRenderer] else []) ++
    (if b._buttonDisabledRenderer.visible then [NodeRef.disabledRenderer] else [])

/-- The nodes among the protected children. -/
def protectedNodes (b : Button) : List NodeRef := b._protectedChildren.map ProtectedChild.node

/-- The title string when a title renderer exists. -/
def titleString (b : Button) : Option String := b._titleRenderer.map Label.string

/-- The settings of a button that only UIButton.cpp writes and that none of its virtual
methods changes: what a base-class call cannot alter. -/
structure Settings where
  scale9Enabled : Bool
  pressedActionEnabled : Bool
  zoomScale : ℚ
  normalFileName : String
  clickedFileName : String
  disabledFileName : String
  normalTexType : TextureResType
  pressedTexType : TextureResType
  disabledTexType : TextureResType
  normalTextureLoaded : Bool
  pressedTextureLoaded : Bool
  disabledTextureLoaded : Bool
deriving DecidableEq, Repr

/-- The settings held by a button. -/
def settings (b : Button) : Settings :=
  { scale9Enabled := b._scale9Enabled
    pressedActionEnabled := b._pressedActionEnabled
    zoomScale := b._zoomScale
    normalFileName := b._normalFileName
    clickedFileName := b._clickedFileName
    disabledFileName := b._disabledFileName
    normalTexType := b._normalTexType
    pressedTexType := b._pressedTexType
    disabledTexType := b._disabledTexType
    normalTextureLoaded := b._normalTextureLoaded
    pressedTextureLoaded := b._pressedTextureLoaded
    disabledTextureLoaded := b._disabledTextureLoaded }

/-- The font configuration of a label: its type with the paths, names and sizes behind it. -/
def fontOf (l : Label) : LabelType × TTFConfig × String × ℚ × String :=
  (l.labelType, l.ttfConfig, l.systemFontName, l.systemFontSize, l.bmFontFilePath)

/-- The stored font name with the font configuration of the title, when there is a title. -/
def fontState (b : Button) : String × Option (LabelType × TTFConfig × String × ℚ × String) :=
  (b._fontName, b._titleRenderer.map fontOf)

/-- The members that decide the size mode, apart from the ignore-size flag itself. -/
def sizeMode (b : Button) : Bool × Bool × Bool :=
  (b._unifySize, b._scale9Enabled, b._prevIgnoreSize)

/-- Modelled from the spec: the action manager that runs the `ScaleTo` actions is not part of
UIButton.cpp. Between two calls a running action may have brought the scale of the pressed
renderer to any value `(sx, sy)`; a renderer with no running action keeps its scale. -/
def zoomed (sx sy : ℚ) (b : Button) : Button :=
  if b._buttonClickedRenderer.actions.isEmpty then b
  else b.onClicked (Scale9Sprite.setScaleXY sx sy)

end Button

/-! A concrete engine and concrete buttons.

The simplest toolkit behaviour, used to evaluate the definitions on concrete inputs. -/

/-- An engine whose sprites remember the image name, whose labels record the font calls and
whose base class stores the sizes it is given. -/
def Engine.plain : Engine where
  CC_DEFAULT_FONT_LABEL_SIZE := 12
  Vec2_equals := fun a b => decide (a = b)
  Helper_restrictCapInsetRect := fun r _ => r
  FileUtils_isFileExist := fun f => f.endsWith ".ttf" || f.endsWith ".fnt"
  Scale9Sprite_create :=
    { visible := true, state := .NORMAL, scaleX := 1, scaleY := 1, renderingType := .SLICE,
      capInsets := Rect.ZERO, preferredSize := Vec2.ZERO, position := Vec2.ZERO, actions := [],
      texture := "" }
  Scale9Sprite_initWithFile := fun f s => { s with texture := f }
  Scale9Sprite_initWithSpriteFrameName := fun f s => { s with texture := f }
  Scale9Sprite_initWithSpriteFrame := fun f s =>
    { s with texture := if f.isSome then "frame" else "" }
  Scale9Sprite_resetRender := fun s => { s with texture := "" }
  Scale9Sprite_copyTo := fun src dst =>
    { dst with texture := src.texture, state := src.state, capInsets := src.capInsets }
  Scale9Sprite_getContentSize := fun s => ⟨s.texture.length, s.texture.length⟩
  Label_create :=
    { ptr := 0, string := "", textColor := ⟨255, 255, 255, 255⟩, labelType := .STRING_TEXTURE,
      ttfConfig := ⟨"", 12⟩, systemFontName := "Helvetica", systemFontSize := 12,
      bmFontFilePath := "", anchorPoint := Vec2.ZERO, position := Vec2.ZERO, scaleX := 1,
      scaleY := 1, actions := [] }
  Label_getContentSize := fun l => ⟨l.string.length, if l.string.isEmpty then 0 else 1⟩
  Label_getRenderingFontSize := fun l =>
    match l.labelType with
    | .TTF => l.ttfConfig.fontSize
    | .STRING_TEXTURE => l.systemFontSize
    | _ => 0
  Label_setTTFConfig := fun c l => { l with ttfConfig := c, labelType := .TTF }
  Label_setSystemFontSize := fun k l => { l with systemFontSize := k }
  Label_setBMFontFilePath := fun f l => { l with bmFontFilePath := f, labelType := .BMFONT }
  Label_setSystemFontName := fun f l => { l with systemFontName := f, labelType := .STRING_TEXTURE }
  Widget_ignoreContentAdaptWithSize := fun v b => { b with _ignoreSize := v }
  Widget_setContentSize := fun s b => { b with _contentSize := s, _customSize := s }
  Widget_onSizeChanged := fun b => b
  Widget_updateContentSizeWithTextureSize := fun s b =>
    { b with _contentSize := if b._ignoreSize then s else b._customSize }
  Widget_setBright := fun v b => { b with _bright := v }
  Node_updateChildrenDisplayedRGBA := fun b => b

/-- A freshly created button over `Engine.plain`. -/
def Button.fresh : Button :=
  Button.initRenderer Engine.plain Vec2.ZERO Vec2.ZERO true false true .NORMAL

/-- A label at address 7, as an application would create it. -/
def Label.sample : Label := { Engine.plain.Label_create with ptr := 7, string := "ok" }

/-- A button with a normal and a pressed image and no disabled image. -/
def Button.twoImages : Button :=
  Button.loadTextures Engine.plain "n.png" "p.png" "" .LOCAL Button.fresh

/-- A button with a normal, a pressed and a disabled image. -/
def Button.threeImages : Button :=
  Button.loadTextures Engine.plain "n.png" "p.png" "d.png" .LOCAL Button.fresh

/-- A button with a title created by `setTitleText`, without images. -/
def Button.titled : Button :=
  (Button.setTitleText Engine.plain "Hi" Button.fresh).getD Button.fresh

/-- A button whose normal image comes from a sprite frame. -/
def Button.framed : Button :=
  Button.loadTextureNormalSpriteFrame Engine.plain (some 1) Button.fresh

/-- A button with two images that was pressed with the pressed action on, disabled in the
same frame, had the pressed action switched off and was enabled again: both background
renderers are at scale 1 and the zoom action started by the press is still running on the
pressed renderer. -/
def Button.lingering : Button :=
  Button.onPressStateChangedToNormal
    (Button.setPressedActionEnabled false
      (Button.onPressStateChangedToDisabled
        (Button.onPressStateChangedToPressed
          (Button.setPressedActionEnabled true Button.twoImages))))

/-- A button with two images, a pressed texture among them, and the pressed action on: a
press starts the zoom action on the pressed renderer and scales the normal renderer. -/
def Button.zooming : Button := Button.setPressedActionEnabled true Button.twoImages

/-- The plain engine with two font files on disk, `Arial.FNT` and `Vera.ttf`. -/
def Engine.fonts : Engine :=
  { Engine.plain with
    FileUtils_isFileExist := fun f => decide (f = "Arial.FNT") || decide (f = "Vera.ttf") }

/-! Properties -/

/-! The `float` sum on the values that occur below. -/

theorem Float32.ulp_of_binade (x : ℚ) (h1 : 1 ≤ x) (h2 : x < 2) :
    Float32.ulp x = 1 / 8388608 := by
  have hlog : Int.log 2 |x| = 0 := by
    rw [abs_of_pos (by linarith), Int.log_of_one_le_right 2 h1]
    have : ⌊x⌋₊ = 1 := by
      rw [Nat.floor_eq_iff (by linarith)]
      constructor <;> norm_num <;> linarith
    rw [this]
    simp
  unfold Float32.ulp
  rw [hlog]
  norm_num

/-- The sum `1.0f + 0.1f`: the exact sum 147639501/134217728 lies between two binary32
values and is rounded up to 9227469/8388608. -/
theorem Float32.add_one_default :
    Float32.add 1 (13421773 / 134217728) = 9227469 / 8388608 := by
  have hx : (1 : ℚ) + 13421773 / 134217728 = 147639501 / 134217728 := by norm_num
  have hu := Float32.ulp_of_binade (147639501 / 134217728) (by norm_num) (by norm_num)
  have hf : ⌊(147639501 / 16 : ℚ)⌋ = 9227468 := by
    rw [Int.floor_eq_iff]
    constructor <;> norm_num
  unfold Float32.add Float32.round
  rw [hx, hu]
  have hy : (147639501 / 134217728 : ℚ) / (1 / 8388608) = 147639501 / 16 := by norm_num
  rw [hy]
  unfold Float32.roundHalfEven
  rw [hf]
  norm_num

/-- A zoom scale below half a step is absorbed: `1.0f + 2 ^ (-30)` is `1.0f`. -/
theorem Float32.add_one_tiny : Float32.add 1 (1 / 1073741824) = 1 := by
  have hx : (1 : ℚ) + 1 / 1073741824 = 1073741825 / 1073741824 := by norm_num
  have hu := Float32.ulp_of_binade (1073741825 / 1073741824) (by norm_num) (by norm_num)
  have hf : ⌊(1073741825 / 128 : ℚ)⌋ = 8388608 := by
    rw [Int.floor_eq_iff]
    constructor <;> norm_num
  unfold Float32.add Float32.round
  rw [hx, hu]
  have hy : (1073741825 / 1073741824 : ℚ) / (1 / 8388608) = 1073741825 / 128 := by norm_num
  rw [hy]
  unfold Float32.roundHalfEven
  rw [hf]
  norm_num

/-- The rounded sum `1.0f + 0.1f` is not the exact sum of 1 and `0.1f`. -/
theorem Float32.add_one_default_ne_exact :
    Float32.add 1 (13421773 / 134217728) ≠ 1 + 13421773 / 134217728 := by
  rw [Float32.add_one_default]
  norm_num

theorem Float32.ulp_pos (x : ℚ) : 0 < Float32.ulp x := by
  unfold Float32.ulp
  positivity

theorem Float32.abs_roundHalfEven_sub_le (y : ℚ) :
    |(Float32.roundHalfEven y : ℚ) - y| ≤ 1 / 2 := by
  have h0 := Int.floor_le y
  have h1 := Int.lt_floor_add_one y
  unfold Float32.roundHalfEven
  rw [abs_le]
  split_ifs with ha hb hc
  · constructor <;> linarith
  · constructor <;> push_cast <;> linarith
  · constructor <;> linarith
  · constructor <;> push_cast <;> linarith

/-- Rounding moves a value by at most half a step. -/
theorem Float32.abs_round_sub_le (x : ℚ) :
    |Float32.round x - x| ≤ Float32.ulp x / 2 := by
  have hu := Float32.ulp_pos x
  have h := Float32.abs_roundHalfEven_sub_le (x / Float32.ulp x)
  have e : Float32.round x - x =
      ((Float32.roundHalfEven (x / Float32.ulp x) : ℚ) - x / Float32.ulp x) *
        Float32.ulp x := by
    unfold Float32.round
    field_simp
  rw [e, abs_mul, abs_of_pos hu]
  calc _ ≤ 1 / 2 * Float32.ulp x := mul_le_mul_of_nonneg_right h hu.le
    _ = Float32.ulp x / 2 := by ring

/-- The sum the handler computes is within half a step of the exact one. -/
theorem Float32.abs_add_sub_le (x y : ℚ) :
    |Float32.add x y - (x + y)| ≤ Float32.ulp (x + y) / 2 :=
  Float32.abs_round_sub_le (x + y)

namespace Button

/-! Frame lemmas: what each method does to the settings and to the title string. -/

theorem updateTitleLocation_of_isSome {b : Button} (h : b._titleRenderer.isSome = true) :
    updateTitleLocation b =
      some (onTitle (Label.setPosition (b._contentSize.width * (1 / 2))
        (b._contentSize.height * (1 / 2))) b) := by
  cases hb : b._titleRenderer with
  | none => rw [hb] at h; exact absurd h (by decide)
  | some l => simp only [updateTitleLocation, derefTitle, hb]

theorem isSome_of_titleString_eq {b c : Button} (h : titleString c = titleString b) :
    c._titleRenderer.isSome = b._titleRenderer.isSome := by
  unfold titleString at h
  cases hb : b._titleRenderer <;> cases hc : c._titleRenderer <;> rw [hb, hc] at h <;>
    first | rfl | exact absurd h (by simp)

theorem titleString_onTitle (f : Label → Label) (hf : ∀ l, (f l).string = l.string) (b : Button) :
    titleString (onTitle f b) = titleString b := by
  show (Option.map f b._titleRenderer).map Label.string = b._titleRenderer.map Label.string
  cases b._titleRenderer with
  | none => rfl
  | some l => exact congrArg some (hf l)

theorem settings_onSizeChanged {E : Engine} (hs : E.Keeps settings) (b : Button) :
    settings (onSizeChanged E b) = settings b := by
  rw [← hs.onSizeChanged b]
  simp only [onSizeChanged]
  split_ifs with h
  · rw [updateTitleLocation_of_isSome h]; rfl
  · rfl

theorem titleString_onSizeChanged {E : Engine} (ht : E.Keeps titleString) (b : Button) :
    titleString (onSizeChanged E b) = titleString b := by
  rw [← ht.onSizeChanged b]
  simp only [onSizeChanged]
  split_ifs with h
  · rw [updateTitleLocation_of_isSome h]
    exact titleString_onTitle (Label.setPosition _ _) (fun _ => rfl) (E.Widget_onSizeChanged b)
  · rfl

theorem settings_updateContentSize {E : Engine} (hs : E.Keeps settings) (b : Button) :
    settings (updateContentSize E b) = settings b := by
  simp only [updateContentSize]
  split_ifs
  · rw [settings_onSizeChanged hs]; rfl
  · rw [settings_onSizeChanged hs]; rfl
  · rw [hs.setContentSize]
  · rfl

theorem titleString_updateContentSize {E : Engine} (ht : E.Keeps titleString) (b : Button) :
    titleString (updateContentSize E b) = titleString b := by
  simp only [updateContentSize]
  split_ifs
  · rw [titleString_onSizeChanged ht]; rfl
  · rw [titleString_onSizeChanged ht]; rfl
  · rw [ht.setContentSize]
  · rfl

theorem settings_ignoreContentAdaptWithSize {E : Engine} (hs : E.Keeps settings) (v : Bool) (b : Button) :
    settings (ignoreContentAdaptWithSize E v b) = settings b := by
  simp only [ignoreContentAdaptWithSize]
  split_ifs
  · exact settings_updateContentSize hs b
  · exact hs.ignoreContentAdaptWithSize v b
  · rfl

theorem settings_setCapInsetsNormalRenderer {E : Engine} (c : Rect) (b : Button) :
    settings (setCapInsetsNormalRenderer E c b) = settings b := by
  simp only [setCapInsetsNormalRenderer]; split_ifs <;> rfl

theorem settings_setCapInsetsPressedRenderer {E : Engine} (c : Rect) (b : Button) :
    settings (setCapInsetsPressedRenderer E c b) = settings b := by
  simp only [setCapInsetsPressedRenderer]; split_ifs <;> rfl

theorem settings_setCapInsetsDisabledRenderer {E : Engine} (c : Rect) (b : Button) :
    settings (setCapInsetsDisabledRenderer E c b) = settings b := by
  simp only [setCapInsetsDisabledRenderer]; split_ifs <;> rfl

theorem settings_setScale9Enabled {E : Engine} (hs : E.Keeps settings) (able : Bool) (b : Button) :
    settings (setScale9Enabled E able b) = { settings b with scale9Enabled := able } := by
  simp only [setScale9Enabled]
  split_ifs with h1
  · subst h1; rfl
  all_goals
    show settings (E.Widget_setBright _ _) = _
    rw [hs.setBright]
    show settings (setCapInsetsDisabledRenderer E _ _) = _
    rw [settings_setCapInsetsDisabledRenderer, settings_setCapInsetsPressedRenderer,
      settings_setCapInsetsNormalRenderer]
    show settings (ignoreContentAdaptWithSize E _ _) = _
    rw [settings_ignoreContentAdaptWithSize hs]
    rfl

theorem settings_setupNormalTexture {E : Engine} (hs : E.Keeps settings) (v : Bool) (b : Button) :
    settings (setupNormalTexture E v b) = { settings b with normalTextureLoaded := v } := by
  simp only [setupNormalTexture]
  split_ifs
  · show ({ settings (E.Widget_updateContentSizeWithTextureSize _ _) with
        normalTextureLoaded := v } : Settings) = _
    rw [hs.updateContentSizeWithTextureSize, hs.updateChildrenDisplayedRGBA]
    rfl
  · show ({ settings (E.Node_updateChildrenDisplayedRGBA _) with
        normalTextureLoaded := v } : Settings) = _
    rw [hs.updateChildrenDisplayedRGBA]
    rfl
  · show ({ settings (E.Widget_updateContentSizeWithTextureSize _ _) with
        normalTextureLoaded := v } : Settings) = _
    rw [hs.updateContentSizeWithTextureSize, hs.updateChildrenDisplayedRGBA]
    rfl

theorem settings_setupPressedTexture {E : Engine} (hs : E.Keeps settings) (v : Bool) (b : Button) :
    settings (setupPressedTexture E v b) = { settings b with pressedTextureLoaded := v } := by
  show ({ settings (E.Node_updateChildrenDisplayedRGBA _) with
      pressedTextureLoaded := v } : Settings) = _
  rw [hs.updateChildrenDisplayedRGBA]
  rfl

theorem settings_setupDisabledTexture {E : Engine} (hs : E.Keeps settings) (v : Bool) (b : Button) :
    settings (setupDisabledTexture E v b) = { settings b with disabledTextureLoaded := v } := by
  show ({ settings (E.Node_updateChildrenDisplayedRGBA _) with
      disabledTextureLoaded := v } : Settings) = _
  rw [hs.updateChildrenDisplayedRGBA]
  rfl

theorem settings_loadTextureNormal {E : Engine} (hs : E.Keeps settings) (f : String) (t : TextureResType)
    (b : Button) :
    settings (loadTextureNormal E f t b) =
      { settings b with
        normalFileName := f, normalTexType := t, normalTextureLoaded := !f.isEmpty } := by
  simp only [loadTextureNormal]
  cases hf : f.isEmpty <;> cases t <;> simp only [Bool.false_eq_true, if_false, if_true] <;>
    split_ifs <;> rw [settings_setupNormalTexture hs] <;> rfl

theorem settings_loadTexturePressed {E : Engine} (hs : E.Keeps settings) (f : String) (t : TextureResType)
    (b : Button) :
    settings (loadTexturePressed E f t b) =
      { settings b with
        clickedFileName := f, pressedTexType := t, pressedTextureLoaded := !f.isEmpty } := by
  simp only [loadTexturePressed]
  cases hf : f.isEmpty <;> cases t <;> simp only [Bool.false_eq_true, if_false, if_true] <;>
    rw [settings_setupPressedTexture hs] <;> rfl

theorem settings_loadTextureDisabled {E : Engine} (hs : E.Keeps settings) (f : String) (t : TextureResType)
    (b : Button) :
    settings (loadTextureDisabled E f t b) =
      { settings b with
        disabledFileName := f, disabledTexType := t, disabledTextureLoaded := !f.isEmpty } := by
  simp only [loadTextureDisabled]
  cases hf : f.isEmpty <;> cases t <;> simp only [Bool.false_eq_true, if_false, if_true] <;>
    rw [settings_setupDisabledTexture hs] <;> rfl


theorem settings_createTitleRendererIfNull {E : Engine} (b : Button) :
    settings (createTitleRendererIfNull E b).2 = settings b := by
  simp only [createTitleRendererIfNull]; split_ifs <;> rfl

theorem isSome_createTitleRendererIfNull {E : Engine} (b : Button) :
    (createTitleRendererIfNull E b).2._titleRenderer.isSome = true := by
  simp only [createTitleRendererIfNull]
  split_ifs with h
  · rfl
  · cases hb : b._titleRenderer with
    | none => rw [hb] at h; exact absurd rfl h
    | some l => rfl

theorem isSome_updateContentSize {E : Engine} (ht : E.Keeps titleString) (b : Button) :
    (updateContentSize E b)._titleRenderer.isSome = b._titleRenderer.isSome :=
  isSome_of_titleString_eq (titleString_updateContentSize ht b)

theorem setTitleFontSize_spec {E : Engine} (ht : E.Keeps titleString) (size : ℚ) (b : Button) :
    ∃ b', setTitleFontSize E size b = some b' ∧ b'._titleRenderer.isSome = true ∧
      (E.Keeps settings → settings b' = settings b) := by
  have hc := isSome_createTitleRendererIfNull (E := E) b
  have hsc := settings_createTitleRendererIfNull (E := E) b
  cases hl : (createTitleRendererIfNull E b).2._titleRenderer with
  | none => rw [hl] at hc; exact absurd hc (by decide)
  | some l =>
    simp only [setTitleFontSize, hl]
    split_ifs
    all_goals
      refine ⟨_, rfl, ?_, fun hs => ?_⟩
      · first
          | rfl
          | exact hc
          | (rw [isSome_updateContentSize ht]; first | rfl | exact hc)
      · first
          | exact hsc
          | (rw [settings_updateContentSize hs]; exact hsc)

theorem setTitleFontName_spec {E : Engine} (ht : E.Keeps titleString) (fontName : String) (b : Button) :
    ∃ b', setTitleFontName E fontName b = some b' ∧ b'._titleRenderer.isSome = true ∧
      (E.Keeps settings → settings b' = settings b) := by
  have hc := isSome_createTitleRendererIfNull (E := E) b
  have hsc := settings_createTitleRendererIfNull (E := E) b
  cases hl : (createTitleRendererIfNull E b).2._titleRenderer with
  | none => rw [hl] at hc; exact absurd hc (by decide)
  | some l =>
    simp only [setTitleFontName, hl]
    refine ⟨_, rfl, ?_, fun hs => ?_⟩
    · rw [isSome_updateContentSize ht]; rfl
    · rw [settings_updateContentSize hs]; exact hsc

theorem setTitleColor_spec {E : Engine} (color : Color3B) (b : Button) :
    ∃ b', setTitleColor E color b = some b' ∧ b'._titleRenderer.isSome = true ∧
      settings b' = settings b := by
  have hc := isSome_createTitleRendererIfNull (E := E) b
  have hsc := settings_createTitleRendererIfNull (E := E) b
  cases hl : (createTitleRendererIfNull E b).2._titleRenderer with
  | none => rw [hl] at hc; exact absurd hc (by decide)
  | some l =>
    simp only [setTitleColor, derefTitle, hl]
    refine ⟨_, rfl, ?_, hsc⟩
    show (Option.map _ (createTitleRendererIfNull E b).2._titleRenderer).isSome = true
    rw [hl]; rfl

theorem getTitleText_of_titleString {b : Button} {t : String} (h : titleString b = some t) :
    getTitleText b = t := by
  unfold titleString at h
  unfold getTitleText
  cases hb : b._titleRenderer with
  | none => rw [hb] at h; exact absurd h (by simp)
  | some l => rw [hb] at h; simpa using h

theorem setTitleText_tail {E : Engine} (ht : E.Keeps titleString) (text : String) (c : Button)
    (hi : c._titleRenderer.isSome = true) :
    ∃ b', (derefTitle (Label.setString text) c).bind
        (fun b => updateTitleLocation (updateContentSize E b)) = some b' ∧
      getTitleText b' = text ∧ (E.Keeps settings → settings b' = settings c) := by
  cases hl : c._titleRenderer with
  | none => rw [hl] at hi; exact absurd hi (by decide)
  | some l =>
    have hd : derefTitle (Label.setString text) c = some (onTitle (Label.setString text) c) := by
      simp only [derefTitle, hl]
    have hts : titleString (updateContentSize E (onTitle (Label.setString text) c)) =
        some text := by
      rw [titleString_updateContentSize ht]
      show (Option.map _ c._titleRenderer).map Label.string = some text
      rw [hl]; rfl
    have hi3 : (updateContentSize E (onTitle (Label.setString text) c))._titleRenderer.isSome
        = true := by
      rw [isSome_updateContentSize ht]
      show (Option.map _ c._titleRenderer).isSome = true
      rw [hl]; rfl
    refine ⟨onTitle (Label.setPosition
        ((updateContentSize E (onTitle (Label.setString text) c))._contentSize.width * (1 / 2))
        ((updateContentSize E (onTitle (Label.setString text) c))._contentSize.height * (1 / 2)))
        (updateContentSize E (onTitle (Label.setString text) c)), ?_, ?_, fun hs => ?_⟩
    · rw [hd]
      exact updateTitleLocation_of_isSome hi3
    · apply getTitleText_of_titleString
      rw [titleString_onTitle (Label.setPosition _ _) (fun _ => rfl)]
      exact hts
    · show settings (updateContentSize E (onTitle (Label.setString text) c)) = _
      rw [settings_updateContentSize hs]
      rfl

theorem setTitleText_spec {E : Engine} (ht : E.Keeps titleString) (text : String) (b : Button) :
    ∃ b', setTitleText E text b = some b' ∧ getTitleText b' = text ∧
      (E.Keeps settings → settings b' = settings b) := by
  by_cases h : text = getTitleText b
  · exact ⟨b, by simp only [setTitleText, if_pos h], h.symm, fun _ => rfl⟩
  · simp only [setTitleText, if_neg h]
    split_ifs
    · obtain ⟨c, hc, hi, hsx⟩ := setTitleFontSize_spec ht E.CC_DEFAULT_FONT_LABEL_SIZE
        (createTitleRendererIfNull E b).2
      obtain ⟨b', hb', hg, hsy⟩ := setTitleText_tail ht text c hi
      refine ⟨b', ?_, hg, fun hs => ?_⟩
      · rw [hc]; exact hb'
      · rw [hsy hs, hsx hs, settings_createTitleRendererIfNull]
    · obtain ⟨b', hb', hg, hsy⟩ := setTitleText_tail ht text (createTitleRendererIfNull E b).2
        (isSome_createTitleRendererIfNull b)
      exact ⟨b', hb', hg, fun hs => (hsy hs).trans (settings_createTitleRendererIfNull b)⟩


theorem copySpecialProperties_spec {E : Engine} (hs : E.Keeps settings) (ht : E.Keeps titleString)
    (button b : Button) :
    ∃ b', copySpecialProperties E (.button button) b = some b' ∧
      settings b' =
        { settings button with
          normalTextureLoaded := !button._normalFileName.isEmpty
          pressedTextureLoaded := !button._clickedFileName.isEmpty
          disabledTextureLoaded := !button._disabledFileName.isEmpty } := by
  simp only [copySpecialProperties]
  generalize hp : setCapInsetsDisabledRenderer E button._capInsetsDisabled _ = p
  have hsp : ∀ z : ℚ, ∀ a : Bool, ({ settings p with zoomScale := z, pressedActionEnabled := a } : Settings) =
      { settings button with
        zoomScale := z, pressedActionEnabled := a,
        normalTextureLoaded := !button._normalFileName.isEmpty
        pressedTextureLoaded := !button._clickedFileName.isEmpty
        disabledTextureLoaded := !button._disabledFileName.isEmpty } := by
    intro z a
    rw [← hp, settings_setCapInsetsDisabledRenderer, settings_setCapInsetsPressedRenderer,
      settings_setCapInsetsNormalRenderer, settings_setupDisabledTexture hs]
    show ({ settings (setupPressedTexture E _ _) with
      disabledFileName := button._disabledFileName, disabledTexType := button._disabledTexType,
      disabledTextureLoaded := !button._disabledFileName.isEmpty,
      zoomScale := z, pressedActionEnabled := a } : Settings) = _
    rw [settings_setupPressedTexture hs]
    show ({ settings (setupNormalTexture E _ _) with
      clickedFileName := button._clickedFileName, pressedTexType := button._pressedTexType,
      pressedTextureLoaded := !button._clickedFileName.isEmpty,
      disabledFileName := button._disabledFileName, disabledTexType := button._disabledTexType,
      disabledTextureLoaded := !button._disabledFileName.isEmpty,
      zoomScale := z, pressedActionEnabled := a } : Settings) = _
    rw [settings_setupNormalTexture hs]
    show ({ settings (setScale9Enabled E _ _) with
      normalFileName := button._normalFileName, normalTexType := button._normalTexType,
      normalTextureLoaded := !button._normalFileName.isEmpty,
      clickedFileName := button._clickedFileName, pressedTexType := button._pressedTexType,
      pressedTextureLoaded := !button._clickedFileName.isEmpty,
      disabledFileName := button._disabledFileName, disabledTexType := button._disabledTexType,
      disabledTextureLoaded := !button._disabledFileName.isEmpty,
      zoomScale := z, pressedActionEnabled := a } : Settings) = _
    rw [settings_setScale9Enabled hs]
    rfl
  clear hp
  split_ifs
  · obtain ⟨b1, h1, _, s1⟩ := setTitleText_spec ht (getTitleText button) p
    obtain ⟨b2, h2, _, s2⟩ := setTitleFontName_spec ht (getTitleFontName button) b1
    obtain ⟨b3, h3, _, s3⟩ := setTitleFontSize_spec ht (getTitleFontSize E button) b2
    obtain ⟨b4, h4, _, s4⟩ := setTitleColor_spec (E := E) (getTitleColor button) b3
    refine ⟨setZoomScale button._zoomScale
      (setPressedActionEnabled button._pressedActionEnabled b4), ?_, ?_⟩
    · simp only [h1, h2, h3, h4, Option.bind_eq_bind, Option.some_bind]
    · have := hsp button._zoomScale button._pressedActionEnabled
      rw [← s1 hs, ← s2 hs, ← s3 hs, ← s4] at this
      exact this
  · exact ⟨_, rfl, hsp button._zoomScale button._pressedActionEnabled⟩

theorem protectedNodes_setTitleLabel (b : Button) (l : Label)
    (hne : b._titleRenderer.map Label.ptr ≠ some l.ptr) :
    ∃ b', setTitleLabel (some l) b = some b' ∧
      (getTitleLabel b').map Label.ptr = some l.ptr ∧
      protectedNodes b' = protectedNodes b ++ [NodeRef.label l.ptr] := by
  have hc : b._titleRenderer.map Label.ptr ≠ (some l).map Label.ptr := hne
  simp only [setTitleLabel, if_pos hc]
  rw [updateTitleLocation_of_isSome
    (b := addProtectedChild (.label l.ptr) TITLE_RENDERER_Z (-1) { b with _titleRenderer := some l })
    rfl]
  refine ⟨_, rfl, rfl, ?_⟩
  show List.map ProtectedChild.node (b._protectedChildren ++ [_]) = _
  rw [List.map_append]
  rfl

/-! Claims -/

/-- C1. State-to-visual mapping: after `onPressStateChangedToNormal` only the normal renderer
is visible; with the pressed texture loaded, after `onPressStateChangedToPressed` only the
pressed renderer is visible; with the disabled texture loaded, after
`onPressStateChangedToDisabled` only the disabled renderer is visible. -/
theorem state_to_visual_mapping (b : Button) :
    ((onPressStateChangedToNormal b)._buttonNormalRenderer.visible = true ∧
      (onPressStateChangedToNormal b)._buttonClickedRenderer.visible = false ∧
      (onPressStateChangedToNormal b)._buttonDisabledRenderer.visible = false ∧
      visibleBackgrounds (onPressStateChangedToNormal b) = [NodeRef.normalRenderer]) ∧
    (b._pressedTextureLoaded = true →
      (onPressStateChangedToPressed b)._buttonClickedRenderer.visible = true ∧
      (onPressStateChangedToPressed b)._buttonNormalRenderer.visible = false ∧
      (onPressStateChangedToPressed b)._buttonDisabledRenderer.visible = false ∧
      visibleBackgrounds (onPressStateChangedToPressed b) = [NodeRef.clickedRenderer]) ∧
    (b._disabledTextureLoaded = true →
      (onPressStateChangedToDisabled b)._buttonDisabledRenderer.visible = true ∧
      (onPressStateChangedToDisabled b)._buttonNormalRenderer.visible = false ∧
      (onPressStateChangedToDisabled b)._buttonClickedRenderer.visible = false ∧
      visibleBackgrounds (onPressStateChangedToDisabled b) = [NodeRef.disabledRenderer]) := by
  refine ⟨?_, fun h => ?_, fun h => ?_⟩
  · have hn : (onPressStateChangedToNormal b)._buttonNormalRenderer.visible = true := by
      simp only [onPressStateChangedToNormal]; split_ifs <;> rfl
    have hc : (onPressStateChangedToNormal b)._buttonClickedRenderer.visible = false := by
      simp only [onPressStateChangedToNormal]; split_ifs <;> rfl
    have hd : (onPressStateChangedToNormal b)._buttonDisabledRenderer.visible = false := by
      simp only [onPressStateChangedToNormal]; split_ifs <;> rfl
    refine ⟨hn, hc, hd, ?_⟩
    simp only [visibleBackgrounds, hn, hc, hd]
    rfl
  · have hp : (b.onNormal (Scale9Sprite.setState .NORMAL))._pressedTextureLoaded = true := h
    have hc : (onPressStateChangedToPressed b)._buttonClickedRenderer.visible = true := by
      simp only [onPressStateChangedToPressed, hp, if_true]; split_ifs <;> rfl
    have hn : (onPressStateChangedToPressed b)._buttonNormalRenderer.visible = false := by
      simp only [onPressStateChangedToPressed, hp, if_true]; split_ifs <;> rfl
    have hd : (onPressStateChangedToPressed b)._buttonDisabledRenderer.visible = false := by
      simp only [onPressStateChangedToPressed, hp, if_true]; split_ifs <;> rfl
    refine ⟨hc, hn, hd, ?_⟩
    simp only [visibleBackgrounds, hn, hc, hd]
    rfl
  · have hd : (onPressStateChangedToDisabled b)._buttonDisabledRenderer.visible = true := by
      simp only [onPressStateChangedToDisabled, h]; rfl
    have hn : (onPressStateChangedToDisabled b)._buttonNormalRenderer.visible = false := by
      simp only [onPressStateChangedToDisabled, h]; rfl
    have hc : (onPressStateChangedToDisabled b)._buttonClickedRenderer.visible = false := by
      simp only [onPressStateChangedToDisabled, h]; rfl
    refine ⟨hd, hn, hc, ?_⟩
    simp only [visibleBackgrounds, hn, hc, hd]
    rfl

/-- C1, evaluated on a button with three images: the pressed and the disabled texture are
loaded and each transition shows exactly the renderer of its state. -/
theorem state_to_visual_mapping_witness :
    threeImages._pressedTextureLoaded = true ∧ threeImages._disabledTextureLoaded = true ∧
    visibleBackgrounds (onPressStateChangedToNormal threeImages) = [NodeRef.normalRenderer] ∧
    visibleBackgrounds (onPressStateChangedToPressed threeImages) = [NodeRef.clickedRenderer] ∧
    visibleBackgrounds (onPressStateChangedToDisabled threeImages) = [NodeRef.disabledRenderer] :=
  ⟨by decide, by decide, (state_to_visual_mapping threeImages).1.2.2.2,
    ((state_to_visual_mapping threeImages).2.1 (by decide)).2.2.2,
    ((state_to_visual_mapping threeImages).2.2 (by decide)).2.2.2⟩

/-- C2. Title text round trip: `setTitleText t` returns (it does not fault) and afterwards
`getTitleText` is `t`, for every button, with or without a title renderer, over every engine
whose base-class calls leave the title string as it is. -/
theorem title_text_round_trip (E : Engine) (ht : E.Keeps titleString) (t : String)
    (b : Button) :
    ∃ b', setTitleText E t b = some b' ∧ getTitleText b' = t := by
  obtain ⟨b', h1, h2, _⟩ := setTitleText_spec ht t b
  exact ⟨b', h1, h2⟩

/-- C2, evaluated on a fresh button over the plain engine. -/
theorem title_text_round_trip_witness :
    ∃ b', setTitleText Engine.plain "Hi" fresh = some b' ∧ getTitleText b' = "Hi" :=
  title_text_round_trip Engine.plain
    ⟨fun _ _ => rfl, fun _ _ => rfl, fun _ => rfl, fun _ _ => rfl, fun _ _ => rfl, fun _ => rfl⟩
    "Hi" fresh

/-- C3. Without a title renderer the title getters answer with their defaults: the empty
text, white, font size -1, the empty font name and a null label. The getters are functions
of the state, so they create no title renderer and write nothing. -/
theorem title_getters_without_label (E : Engine) (b : Button) (h : b._titleRenderer = none) :
    getTitleText b = "" ∧ getTitleColor b = Color3B.WHITE ∧ getTitleFontSize E b = -1 ∧
      getTitleFontName b = "" ∧ getTitleLabel b = none := by
  refine ⟨?_, ?_, ?_, ?_, h⟩
  · simp only [getTitleText, h]
  · simp only [getTitleColor, h]
  · simp only [getTitleFontSize, h]
  · simp only [getTitleFontName, h]

/-- C3, evaluated on a fresh button, which has no title renderer. -/
theorem title_getters_without_label_witness :
    fresh._titleRenderer = none ∧ getTitleText fresh = "" ∧
      getTitleColor fresh = Color3B.WHITE ∧ getTitleFontSize Engine.plain fresh = -1 ∧
      getTitleFontName fresh = "" ∧ getTitleLabel fresh = none :=
  ⟨rfl, title_getters_without_label Engine.plain fresh rfl⟩

/-- C4. Cap inset propagation: after `setCapInsets c` each getter returns
`Helper::restrictCapInsetRect` of `c` and the recorded texture size of its state, with
scale9 on or off; each renderer receives that rectangle when scale9 is on and is untouched
when it is off. -/
theorem cap_insets_propagation (E : Engine) (c : Rect) (b : Button) :
    getCapInsetsNormalRenderer (setCapInsets E c b) =
        E.Helper_restrictCapInsetRect c b._normalTextureSize ∧
    getCapInsetsPressedRenderer (setCapInsets E c b) =
        E.Helper_restrictCapInsetRect c b._pressedTextureSize ∧
    getCapInsetsDisabledRenderer (setCapInsets E c b) =
        E.Helper_restrictCapInsetRect c b._disabledTextureSize ∧
    (setCapInsets E c b)._buttonNormalRenderer =
        (if b._scale9Enabled then
          b._buttonNormalRenderer.setCapInsets (E.Helper_restrictCapInsetRect c b._normalTextureSize)
        else b._buttonNormalRenderer) ∧
    (setCapInsets E c b)._buttonClickedRenderer =
        (if b._scale9Enabled then
          b._buttonClickedRenderer.setCapInsets
            (E.Helper_restrictCapInsetRect c b._pressedTextureSize)
        else b._buttonClickedRenderer) ∧
    (setCapInsets E c b)._buttonDisabledRenderer =
        (if b._scale9Enabled then
          b._buttonDisabledRenderer.setCapInsets
            (E.Helper_restrictCapInsetRect c b._disabledTextureSize)
        else b._buttonDisabledRenderer) := by
  cases h : b._scale9Enabled <;>
    simp only [setCapInsets, setCapInsetsNormalRenderer, setCapInsetsPressedRenderer,
      setCapInsetsDisabledRenderer, getCapInsetsNormalRenderer, getCapInsetsPressedRenderer,
      getCapInsetsDisabledRenderer, h, Bool.not_false, Bool.not_true, if_true,
      Bool.false_eq_true, if_false] <;>
    refine ⟨?_, ?_, ?_, ?_, ?_, ?_⟩ <;> first | rfl | trivial

/-- C5. Clone of the configuration: `copySpecialProperties` from a source button returns and
gives the target the source's scale9 flag, its three texture file names, its three texture
resource types, its pressed-action flag and its zoom scale. The source is an argument that
is only read. Engines are those whose base-class calls keep settings and title string. -/
theorem copy_special_properties_configuration (E : Engine) (hs : E.Keeps settings)
    (ht : E.Keeps titleString) (source target : Button) :
    ∃ target', copySpecialProperties E (.button source) target = some target' ∧
      target'._scale9Enabled = source._scale9Enabled ∧
      target'._normalFileName = source._normalFileName ∧
      target'._clickedFileName = source._clickedFileName ∧
      target'._disabledFileName = source._disabledFileName ∧
      target'._normalTexType = source._normalTexType ∧
      target'._pressedTexType = source._pressedTexType ∧
      target'._disabledTexType = source._disabledTexType ∧
      target'._pressedActionEnabled = source._pressedActionEnabled ∧
      target'._zoomScale = source._zoomScale := by
  obtain ⟨b', h1, h2⟩ := copySpecialProperties_spec hs ht source target
  exact ⟨b', h1, congrArg Settings.scale9Enabled h2, congrArg Settings.normalFileName h2,
    congrArg Settings.clickedFileName h2, congrArg Settings.disabledFileName h2,
    congrArg Settings.normalTexType h2, congrArg Settings.pressedTexType h2,
    congrArg Settings.disabledTexType h2, congrArg Settings.pressedActionEnabled h2,
    congrArg Settings.zoomScale h2⟩

/-- C5, evaluated on a fresh target and a source with three images over the plain engine. -/
theorem copy_special_properties_configuration_witness :
    ∃ target', copySpecialProperties Engine.plain (.button threeImages) fresh = some target' ∧
      target'._scale9Enabled = threeImages._scale9Enabled ∧
      target'._normalFileName = threeImages._normalFileName ∧
      target'._clickedFileName = threeImages._clickedFileName ∧
      target'._disabledFileName = threeImages._disabledFileName ∧
      target'._normalTexType = threeImages._normalTexType ∧
      target'._pressedTexType = threeImages._pressedTexType ∧
      target'._disabledTexType = threeImages._disabledTexType ∧
      target'._pressedActionEnabled = threeImages._pressedActionEnabled ∧
      target'._zoomScale = threeImages._zoomScale :=
  copy_special_properties_configuration Engine.plain
    ⟨fun _ _ => rfl, fun _ _ => rfl, fun _ => rfl, fun _ _ => rfl, fun _ _ => rfl, fun _ => rfl⟩
    ⟨fun _ _ => rfl, fun _ _ => rfl, fun _ => rfl, fun _ _ => rfl, fun _ _ => rfl, fun _ => rfl⟩
    threeImages fresh

/-- C6. What `setTitleLabel` does with a label other than the one in use: it returns, the
new label is the title label and is added to the protected children, and the label used
before is still among the protected children: it is released, not removed. -/
theorem setTitleLabel_keeps_previous_child (b : Button) (old : Nat) (l : Label)
    (hold : (getTitleLabel b).map Label.ptr = some old) (hne : old ≠ l.ptr)
    (hchild : NodeRef.label old ∈ protectedNodes b) :
    ∃ b', setTitleLabel (some l) b = some b' ∧
      (getTitleLabel b').map Label.ptr = some l.ptr ∧
      NodeRef.label l.ptr ∈ protectedNodes b' ∧
      NodeRef.label old ∈ protectedNodes b' := by
  have hp : b._titleRenderer.map Label.ptr ≠ some l.ptr := by
    have hold' : b._titleRenderer.map Label.ptr = some old := hold
    rw [hold']
    exact fun h => hne (Option.some.inj h)
  obtain ⟨b', h1, h2, h3⟩ := protectedNodes_setTitleLabel b l hp
  refine ⟨b', h1, h2, ?_, ?_⟩
  · rw [h3]; exact List.mem_append_right _ (List.mem_singleton.mpr rfl)
  · rw [h3]; exact List.mem_append_left _ hchild

/-- C6, evaluated on the titled button, whose label is at address 0, and a label at address
7: afterwards the protected children hold both labels. -/
theorem setTitleLabel_keeps_previous_child_witness :
    ((getTitleLabel titled).map Label.ptr = some 0 ∧
      NodeRef.label 0 ∈ protectedNodes titled) ∧
    ∃ b', setTitleLabel (some Label.sample) titled = some b' ∧
      (getTitleLabel b').map Label.ptr = some 7 ∧
      NodeRef.label 7 ∈ protectedNodes b' ∧
      NodeRef.label 0 ∈ protectedNodes b' :=
  ⟨⟨by decide, by decide⟩,
    setTitleLabel_keeps_previous_child titled 0 Label.sample (by decide) (by decide)
      (by decide)⟩

/-- C7. Texture file round trip: after `loadTextures n p d t` the three `get*File` methods
return the type `t` with the names `n`, `p` and `d`, whatever the names are and whatever the
renderers do with them. Engines are those whose base-class calls keep the settings. -/
theorem texture_file_round_trip (E : Engine) (hs : E.Keeps settings) (n p d : String)
    (t : TextureResType) (b : Button) :
    getNormalFile (loadTextures E n p d t b) = { type := t.toInt, file := n } ∧
    getPressedFile (loadTextures E n p d t b) = { type := t.toInt, file := p } ∧
    getDisabledFile (loadTextures E n p d t b) = { type := t.toInt, file := d } := by
  have h : settings (loadTextures E n p d t b) =
      { settings b with
        normalFileName := n, normalTexType := t, normalTextureLoaded := !n.isEmpty
        clickedFileName := p, pressedTexType := t, pressedTextureLoaded := !p.isEmpty
        disabledFileName := d, disabledTexType := t, disabledTextureLoaded := !d.isEmpty } := by
    simp only [loadTextures]
    rw [settings_loadTextureDisabled hs, settings_loadTexturePressed hs,
      settings_loadTextureNormal hs]
  refine ⟨?_, ?_, ?_⟩
  · exact congrArg (fun s : Settings => ResourceData.mk s.normalTexType.toInt s.normalFileName) h
  · exact congrArg (fun s : Settings => ResourceData.mk s.pressedTexType.toInt s.clickedFileName) h
  · exact congrArg
      (fun s : Settings => ResourceData.mk s.disabledTexType.toInt s.disabledFileName) h

/-- C7, evaluated on a fresh button with a sprite-sheet name, a file name and an empty name. -/
theorem texture_file_round_trip_witness :
    getNormalFile (loadTextures Engine.plain "n" "p.png" "" .PLIST fresh) =
        { type := 1, file := "n" } ∧
    getPressedFile (loadTextures Engine.plain "n" "p.png" "" .PLIST fresh) =
        { type := 1, file := "p.png" } ∧
    getDisabledFile (loadTextures Engine.plain "n" "p.png" "" .PLIST fresh) =
        { type := 1, file := "" } :=
  texture_file_round_trip Engine.plain
    ⟨fun _ _ => rfl, fun _ _ => rfl, fun _ => rfl, fun _ _ => rfl, fun _ _ => rfl, fun _ => rfl⟩
    "n" "p.png" "" .PLIST fresh

/-- C8. What `onPressStateChangedToDisabled` does without a disabled texture: the normal
and the disabled renderer keep the visibility they had, the pressed renderer is hidden, and
the normal renderer turns gray when its texture is loaded. The normal renderer is not made
visible. -/
theorem disabled_fallback_leaves_visibility (b : Button) (h : b._disabledTextureLoaded = false) :
    (onPressStateChangedToDisabled b)._buttonNormalRenderer.visible =
        b._buttonNormalRenderer.visible ∧
    (onPressStateChangedToDisabled b)._buttonDisabledRenderer.visible =
        b._buttonDisabledRenderer.visible ∧
    (onPressStateChangedToDisabled b)._buttonClickedRenderer.visible = false ∧
    (b._normalTextureLoaded = true →
      (onPressStateChangedToDisabled b)._buttonNormalRenderer.state = SpriteState.GRAY) := by
  refine ⟨?_, ?_, ?_, fun hn => ?_⟩
  · simp only [onPressStateChangedToDisabled, h, Bool.not_false, if_true]; split_ifs <;> rfl
  · simp only [onPressStateChangedToDisabled, h, Bool.not_false, if_true]; split_ifs <;> rfl
  · simp only [onPressStateChangedToDisabled, h, Bool.not_false, if_true]; split_ifs <;> rfl
  · simp only [onPressStateChangedToDisabled, h, hn, Bool.not_false, if_true]; rfl

/-- C8, evaluated on a button with a normal and a pressed image that is disabled while
pressed: the normal texture is loaded, the disabled one is not, and after the transition the
normal renderer is hidden and no background is visible. -/
theorem disabled_fallback_leaves_visibility_witness :
    (onPressStateChangedToPressed twoImages)._normalTextureLoaded = true ∧
    (onPressStateChangedToPressed twoImages)._disabledTextureLoaded = false ∧
    (onPressStateChangedToDisabled
      (onPressStateChangedToPressed twoImages))._buttonNormalRenderer.visible = false ∧
    visibleBackgrounds (onPressStateChangedToDisabled (onPressStateChangedToPressed twoImages))
      = [] :=
  ⟨by decide, by decide,
    (disabled_fallback_leaves_visibility (onPressStateChangedToPressed twoImages)
      (by decide)).1.trans (by decide),
    by decide⟩

/-- C9. Pressed visual without a pressed texture: after `onPressStateChangedToPressed` the
normal renderer is visible and scaled by `1 + zoomScale` on both axes, the disabled renderer
is hidden and an existing title label is scaled by `1 + zoomScale` on both axes, whatever
the pressed-action flag is. The sum is the one the handler computes, `1.0f + _zoomScale` on
`float`, which is `Float32.add`. -/
theorem pressed_visual_without_pressed_texture (b : Button)
    (h : b._pressedTextureLoaded = false) :
    (onPressStateChangedToPressed b)._buttonNormalRenderer.visible = true ∧
    (onPressStateChangedToPressed b)._buttonNormalRenderer.scaleX =
      Float32.add 1 b._zoomScale ∧
    (onPressStateChangedToPressed b)._buttonNormalRenderer.scaleY =
      Float32.add 1 b._zoomScale ∧
    (onPressStateChangedToPressed b)._buttonDisabledRenderer.visible = false ∧
    (onPressStateChangedToPressed b)._titleRenderer.isSome = b._titleRenderer.isSome ∧
    (∀ l, (onPressStateChangedToPressed b)._titleRenderer = some l →
      l.scaleX = Float32.add 1 b._zoomScale ∧ l.scaleY = Float32.add 1 b._zoomScale) := by
  cases b with
  | mk _ _ _ _ _ _ _ _ _ _ title _ _ _ _ _ _ _ _ _ _ _ pressedLoaded =>
    dsimp only at h
    subst h
    cases title with
    | none => exact ⟨rfl, rfl, rfl, rfl, rfl, fun l hl => nomatch hl⟩
    | some l0 =>
      refine ⟨rfl, rfl, rfl, rfl, rfl, fun l hl => ?_⟩
      cases hl
      exact ⟨rfl, rfl⟩

/-- C9, evaluated on the titled button, which has no pressed texture and the zoom scale of
the constructor, `0.1f`: the normal renderer is visible, the disabled one hidden, and the
normal renderer and the title are scaled by `1.0f + 0.1f`, which is 9227469/8388608. -/
theorem pressed_visual_without_pressed_texture_witness :
    titled._pressedTextureLoaded = false ∧ titled._zoomScale = 13421773 / 134217728 ∧
    (onPressStateChangedToPressed titled)._buttonNormalRenderer.visible = true ∧
    (onPressStateChangedToPressed titled)._buttonNormalRenderer.scaleX = 9227469 / 8388608 ∧
    (onPressStateChangedToPressed titled)._buttonNormalRenderer.scaleY = 9227469 / 8388608 ∧
    (onPressStateChangedToPressed titled)._buttonDisabledRenderer.visible = false ∧
    (onPressStateChangedToPressed titled)._titleRenderer.isSome = true ∧
    (∀ l, (onPressStateChangedToPressed titled)._titleRenderer = some l →
      l.scaleX = 9227469 / 8388608 ∧ l.scaleY = 9227469 / 8388608) :=
  ⟨by decide, rfl, (pressed_visual_without_pressed_texture titled (by decide)).1,
    (pressed_visual_without_pressed_texture titled (by decide)).2.1.trans
      Float32.add_one_default,
    (pressed_visual_without_pressed_texture titled (by decide)).2.2.1.trans
      Float32.add_one_default,
    (pressed_visual_without_pressed_texture titled (by decide)).2.2.2.1,
    (pressed_visual_without_pressed_texture titled (by decide)).2.2.2.2.1.trans (by decide),
    fun l hl =>
      ⟨((pressed_visual_without_pressed_texture titled (by decide)).2.2.2.2.2 l hl).1.trans
          Float32.add_one_default,
        ((pressed_visual_without_pressed_texture titled (by decide)).2.2.2.2.2 l hl).2.trans
          Float32.add_one_default⟩⟩

/-- C10. What `copySpecialProperties` does with the texture-loaded flags: it returns, and
each flag of the target says whether the source's file name of that state is non-empty; the
source's flag is assigned and then overwritten by `setup*Texture`. -/
theorem copy_texture_loaded_from_file_names (E : Engine) (hs : E.Keeps settings)
    (ht : E.Keeps titleString) (source target : Button) :
    ∃ target', copySpecialProperties E (.button source) target = some target' ∧
      target'._normalTextureLoaded = !source._normalFileName.isEmpty ∧
      target'._pressedTextureLoaded = !source._clickedFileName.isEmpty ∧
      target'._disabledTextureLoaded = !source._disabledFileName.isEmpty := by
  obtain ⟨b', h1, h2⟩ := copySpecialProperties_spec hs ht source target
  exact ⟨b', h1, congrArg Settings.normalTextureLoaded h2,
    congrArg Settings.pressedTextureLoaded h2, congrArg Settings.disabledTextureLoaded h2⟩

/-- C10, evaluated on a source whose normal image was loaded from a sprite frame: its
normal-texture-loaded flag is set, the flag of the copy is not. -/
theorem copy_texture_loaded_from_file_names_witness :
    framed._normalTextureLoaded = true ∧
    ∃ target', copySpecialProperties Engine.plain (.button framed) fresh = some target' ∧
      target'._normalTextureLoaded = false ∧
      target'._pressedTextureLoaded = false ∧
      target'._disabledTextureLoaded = false :=
  ⟨by decide,
    copy_texture_loaded_from_file_names Engine.plain
      ⟨fun _ _ => rfl, fun _ _ => rfl, fun _ => rfl, fun _ _ => rfl, fun _ _ => rfl, fun _ => rfl⟩
      ⟨fun _ _ => rfl, fun _ _ => rfl, fun _ => rfl, fun _ _ => rfl, fun _ _ => rfl, fun _ => rfl⟩
      framed fresh⟩


/-! Lemmas for the font, size and scale claims. -/

theorem containsSubstring_iff (hay needle : List Char) :
    containsSubstring hay needle = true ↔ ∃ pre post, hay = pre ++ needle ++ post := by
  induction hay with
  | nil =>
    simp only [containsSubstring, List.isEmpty_iff]
    constructor
    · intro h; exact ⟨[], [], by rw [h]; rfl⟩
    · rintro ⟨pre, post, h⟩
      have h1 := List.append_eq_nil.mp h.symm
      exact (List.append_eq_nil.mp h1.1).2
  | cons c cs ih =>
    simp only [containsSubstring, Bool.or_eq_true, ih]
    constructor
    · rintro (h | ⟨pre, post, h⟩)
      · obtain ⟨post, hp⟩ := List.isPrefixOf_iff_prefix.mp h
        exact ⟨[], post, by rw [← hp]; rfl⟩
      · exact ⟨c :: pre, post, by rw [h]; rfl⟩
    · rintro ⟨pre, post, h⟩
      cases pre with
      | nil =>
        left
        exact List.isPrefixOf_iff_prefix.mpr ⟨post, by rw [h]; rfl⟩
      | cons p ps =>
        right
        have h2 : cs = ps ++ needle ++ post := by
          have := List.cons.inj (by simpa using h : c :: cs = p :: (ps ++ needle ++ post))
          exact this.2
        exact ⟨ps, post, h2⟩

theorem fontState_onTitle_setPosition (x y : ℚ) (b : Button) :
    fontState (onTitle (Label.setPosition x y) b) = fontState b := by
  show (b._fontName, (Option.map _ b._titleRenderer).map fontOf) = (b._fontName, _)
  cases b._titleRenderer <;> rfl

theorem fontState_onSizeChanged {E : Engine} (hk : E.Keeps fontState) (b : Button) :
    fontState (onSizeChanged E b) = fontState b := by
  rw [← hk.onSizeChanged b]
  simp only [onSizeChanged]
  split_ifs with h
  · rw [updateTitleLocation_of_isSome h]
    exact fontState_onTitle_setPosition _ _ (E.Widget_onSizeChanged b)
  · rfl

theorem fontState_updateContentSize {E : Engine} (hk : E.Keeps fontState) (b : Button) :
    fontState (updateContentSize E b) = fontState b := by
  simp only [updateContentSize]
  split_ifs
  · rw [fontState_onSizeChanged hk]; rfl
  · rw [fontState_onSizeChanged hk]; rfl
  · rw [hk.setContentSize]
  · rfl

theorem createTitleRendererIfNull_title (E : Engine) (b : Button) :
    ∃ l, (createTitleRendererIfNull E b).2._titleRenderer = some l ∧
      (b._titleRenderer = none → l = E.Label_create.setAnchorPoint Vec2.ANCHOR_MIDDLE) ∧
      (∀ l0, b._titleRenderer = some l0 → l = l0) := by
  cases hb : b._titleRenderer with
  | none =>
    refine ⟨E.Label_create.setAnchorPoint Vec2.ANCHOR_MIDDLE, ?_, fun _ => rfl, ?_⟩
    · simp only [createTitleRendererIfNull, hb, Option.isNone_none, if_true]
      rfl
    · intro l0 h; cases h
  | some l =>
    refine ⟨l, ?_, ?_, ?_⟩
    · simp only [createTitleRendererIfNull, hb, Option.isNone_some, Bool.false_eq_true, if_false]
    · intro h; cases h
    · intro l0 h; exact Option.some.inj h

theorem contentSize_onSizeChanged (E : Engine) (b : Button) :
    (onSizeChanged E b)._contentSize = (E.Widget_onSizeChanged b)._contentSize := by
  simp only [onSizeChanged]
  split_ifs with h
  · rw [updateTitleLocation_of_isSome h]; rfl
  · rfl

theorem dirty_onSizeChanged (E : Engine) (b : Button) :
    (onSizeChanged E b)._normalTextureAdaptDirty = true ∧
    (onSizeChanged E b)._pressedTextureAdaptDirty = true ∧
    (onSizeChanged E b)._disabledTextureAdaptDirty = true :=
  ⟨rfl, rfl, rfl⟩

theorem adaptRenderers_of_dirty (c : Button) (hn : c._normalTextureAdaptDirty = true)
    (hp : c._pressedTextureAdaptDirty = true) (hd : c._disabledTextureAdaptDirty = true) :
    (adaptRenderers c)._contentSize = c._contentSize ∧
    (adaptRenderers c)._normalTextureAdaptDirty = false ∧
    (adaptRenderers c)._pressedTextureAdaptDirty = false ∧
    (adaptRenderers c)._disabledTextureAdaptDirty = false ∧
    (adaptRenderers c)._buttonNormalRenderer.preferredSize = c._contentSize ∧
    (adaptRenderers c)._buttonClickedRenderer.preferredSize = c._contentSize ∧
    (adaptRenderers c)._buttonDisabledRenderer.preferredSize = c._contentSize ∧
    (adaptRenderers c)._buttonNormalRenderer.position =
      ⟨c._contentSize.width / 2, c._contentSize.height / 2⟩ ∧
    (adaptRenderers c)._buttonClickedRenderer.position =
      ⟨c._contentSize.width / 2, c._contentSize.height / 2⟩ ∧
    (adaptRenderers c)._buttonDisabledRenderer.position =
      ⟨c._contentSize.width / 2, c._contentSize.height / 2⟩ ∧
    adaptRenderers (adaptRenderers c) = adaptRenderers c := by
  cases c
  dsimp only at hn hp hd
  subst hn hp hd
  exact ⟨rfl, rfl, rfl, rfl, rfl, rfl, rfl, rfl, rfl, rfl, rfl⟩

theorem ignoreSize_setCapInsets (E : Engine) (x y z : Rect) (b : Button) :
    (setCapInsetsDisabledRenderer E z
      (setCapInsetsPressedRenderer E y (setCapInsetsNormalRenderer E x b)))._ignoreSize =
        b._ignoreSize ∧
    sizeMode (setCapInsetsDisabledRenderer E z
      (setCapInsetsPressedRenderer E y (setCapInsetsNormalRenderer E x b))) = sizeMode b := by
  cases b
  simp only [setCapInsetsDisabledRenderer, setCapInsetsPressedRenderer, setCapInsetsNormalRenderer]
  split_ifs <;> exact ⟨rfl, rfl⟩

theorem sizeMode_onSizeChanged {E : Engine} (hk : E.Keeps sizeMode) (b : Button) :
    sizeMode (onSizeChanged E b) = sizeMode b := by
  rw [← hk.onSizeChanged b]
  simp only [onSizeChanged]
  split_ifs with h
  · rw [updateTitleLocation_of_isSome h]; rfl
  · rfl

theorem ignoreSize_onSizeChanged {E : Engine}
    (hsz : ∀ b, (E.Widget_onSizeChanged b)._ignoreSize = b._ignoreSize) (b : Button) :
    (onSizeChanged E b)._ignoreSize = b._ignoreSize := by
  rw [← hsz b]
  simp only [onSizeChanged]
  split_ifs with h
  · rw [updateTitleLocation_of_isSome h]; rfl
  · rfl

theorem sizeMode_ignoreContentAdaptWithSize {E : Engine} (hk : E.Keeps sizeMode)
    (hset : ∀ v b, b._unifySize = false →
      (E.Widget_ignoreContentAdaptWithSize v b)._ignoreSize = v)
    (hsz : ∀ b, (E.Widget_onSizeChanged b)._ignoreSize = b._ignoreSize)
    (v : Bool) (b : Button) :
    ((ignoreContentAdaptWithSize E v b)._ignoreSize, sizeMode (ignoreContentAdaptWithSize E v b)) =
      if b._unifySize then (b._ignoreSize, sizeMode b)
      else if !b._scale9Enabled || (b._scale9Enabled && !v) then
        (v, b._unifySize, b._scale9Enabled, v)
      else (b._ignoreSize, sizeMode b) := by
  cases hu : b._unifySize
  · simp only [ignoreContentAdaptWithSize, hu, Bool.false_eq_true, if_false]
    split_ifs with hc
    · have h1 := hk.ignoreContentAdaptWithSize v b
      have h2 := hset v b hu
      have h3 : sizeMode { E.Widget_ignoreContentAdaptWithSize v b with _prevIgnoreSize := v } =
          ((E.Widget_ignoreContentAdaptWithSize v b)._unifySize,
            (E.Widget_ignoreContentAdaptWithSize v b)._scale9Enabled, v) := rfl
      rw [h3]
      have h4 : (E.Widget_ignoreContentAdaptWithSize v b)._unifySize = b._unifySize :=
        congrArg (fun t : Bool × Bool × Bool => t.1) h1
      have h5 : (E.Widget_ignoreContentAdaptWithSize v b)._scale9Enabled = b._scale9Enabled :=
        congrArg (fun t : Bool × Bool × Bool => t.2.1) h1
      rw [h4, h5, hu]
      exact congrArg (fun w => (w, false, b._scale9Enabled, v)) h2
    · rfl
  · simp only [ignoreContentAdaptWithSize, hu, if_true, updateContentSize]
    split_ifs
    · rw [sizeMode_onSizeChanged hk, ignoreSize_onSizeChanged hsz]; rfl
    · rw [sizeMode_onSizeChanged hk, ignoreSize_onSizeChanged hsz]; rfl

theorem sizeMode_setScale9Enabled {E : Engine} (hk : E.Keeps sizeMode)
    (hset : ∀ v b, b._unifySize = false →
      (E.Widget_ignoreContentAdaptWithSize v b)._ignoreSize = v)
    (hsz : ∀ b, (E.Widget_onSizeChanged b)._ignoreSize = b._ignoreSize)
    (hbr : ∀ v b, (E.Widget_setBright v b)._ignoreSize = b._ignoreSize)
    (able : Bool) (b : Button) (hne : b._scale9Enabled = !able) :
    ((setScale9Enabled E able b)._ignoreSize, sizeMode (setScale9Enabled E able b)) =
      if able then
        (if b._unifySize then b._ignoreSize else false, b._unifySize, true, b._ignoreSize)
      else
        (if b._unifySize then b._ignoreSize else b._prevIgnoreSize, b._unifySize, false,
          b._prevIgnoreSize) := by
  have hcond : ¬ b._scale9Enabled = able := by
    rw [hne]; cases able <;> decide
  unfold setScale9Enabled
  rw [if_neg hcond]
  lift_lets
  intro b1 b2 b3 b4 b5 b6 ignoreBefore b7 b8 b9 b10 b11 b12 b13
  have f6 : b6._ignoreSize = b._ignoreSize ∧ b6._unifySize = b._unifySize ∧
      b6._scale9Enabled = able ∧ b6._prevIgnoreSize = b._prevIgnoreSize := by
    unfold b6
    split_ifs <;> exact ⟨rfl, rfl, rfl, rfl⟩
  have f8 : (b8._ignoreSize, sizeMode b8) =
      if able then
        (if b._unifySize then b._ignoreSize else false, b._unifySize, true, b._ignoreSize)
      else
        (if b._unifySize then b._ignoreSize else b._prevIgnoreSize, b._unifySize, false,
          b._prevIgnoreSize) := by
    have hi := fun v => sizeMode_ignoreContentAdaptWithSize hk hset hsz v b6
    have hib : ignoreBefore = b6._ignoreSize := rfl
    have hb7 : b7 = ignoreContentAdaptWithSize E false b6 := rfl
    clear_value b6 b7 ignoreBefore
    obtain ⟨g1, g2, g3, g4⟩ := f6
    have g5 : sizeMode b6 = (b._unifySize, able, b._prevIgnoreSize) := by
      show (b6._unifySize, b6._scale9Enabled, b6._prevIgnoreSize) = _
      rw [g2, g3, g4]
    unfold b8
    cases able
    · rw [if_neg (by rw [g3]; decide), hi, g5, g2, g3, g1, g4]
      cases b._unifySize <;> rfl
    · rw [if_pos g3]
      have hj := hi false
      rw [← hb7, g5, g2, g3, g1] at hj
      obtain ⟨j1, j2⟩ := Prod.mk.inj hj
      show ((b7._ignoreSize, b7._unifySize, b7._scale9Enabled, ignoreBefore) :
        Bool × Bool × Bool × Bool) = _
      have j3 : b7._unifySize = b._unifySize := by
        have := congrArg (fun t : Bool × Bool × Bool => t.1) j2
        cases hu : b._unifySize <;> rw [hu] at this <;> exact this
      have j4 : b7._scale9Enabled = true := by
        have := congrArg (fun t : Bool × Bool × Bool => t.2.1) j2
        cases hu : b._unifySize <;> rw [hu] at this <;> exact this
      have j5 : b7._ignoreSize = if b._unifySize then b._ignoreSize else false := by
        have := j1
        cases hu : b._unifySize <;> rw [hu] at this <;> exact this
      rw [j3, j4, j5, hib, g1]
      rfl
  have f11 : b11._ignoreSize = b8._ignoreSize ∧ sizeMode b11 = sizeMode b8 :=
    ignoreSize_setCapInsets E _ _ _ b8
  have f13a : b13._ignoreSize = b11._ignoreSize := hbr _ _
  have f13b : sizeMode b13 = sizeMode b11 := hk.setBright _ _
  show ((b13._ignoreSize, sizeMode b13) : Bool × Bool × Bool × Bool) = _
  rw [f13a, f13b, f11.1, f11.2, f8]

/-! Claims, continued -/

/-- C11. Font configuration by name: `setTitleFontName f` works on the title label `l`,
created first when there is none, and returns a state whose stored font name is `f` and
whose title has the font configuration produced by `setBMFontFilePath(f)` when the file
exists and the lower-cased name contains ".fnt" somewhere, by `setTTFConfig` with
`fontFilePath = f` when the file exists and the lower-cased name does not contain ".fnt",
and by `setSystemFontName(f)` when the file does not exist. Engines are those whose
base-class calls keep the stored font name and the font configuration of the title. -/
theorem font_configuration_by_name (E : Engine) (hk : E.Keeps fontState) (f : String)
    (b : Button) :
    ∃ l b', (createTitleRendererIfNull E b).2._titleRenderer = some l ∧
      (b._titleRenderer = none → l = E.Label_create.setAnchorPoint Vec2.ANCHOR_MIDDLE) ∧
      (∀ l0, b._titleRenderer = some l0 → l = l0) ∧
      setTitleFontName E f b = some b' ∧
      b'._fontName = f ∧
      (E.FileUtils_isFileExist f = true →
        (∃ pre post, (f.map Char.toLower).toList = pre ++ ".fnt".toList ++ post) →
        b'._titleRenderer.map fontOf = some (fontOf (E.Label_setBMFontFilePath f l))) ∧
      (E.FileUtils_isFileExist f = true →
        (¬ ∃ pre post, (f.map Char.toLower).toList = pre ++ ".fnt".toList ++ post) →
        b'._titleRenderer.map fontOf =
          some (fontOf (E.Label_setTTFConfig { l.ttfConfig with fontFilePath := f } l))) ∧
      (E.FileUtils_isFileExist f = false →
        b'._titleRenderer.map fontOf = some (fontOf (E.Label_setSystemFontName f l))) := by
  obtain ⟨l, hl, h1, h2⟩ := createTitleRendererIfNull_title E b
  have hmain : ∃ b', setTitleFontName E f b = some b' ∧
      fontState b' = (f, some (fontOf
        (if E.FileUtils_isFileExist f = true then
          if containsSubstring (f.map Char.toLower).toList ".fnt".toList = true then
            E.Label_setBMFontFilePath f l
          else E.Label_setTTFConfig { l.ttfConfig with fontFilePath := f } l
        else E.Label_setSystemFontName f l))) := by
    simp only [setTitleFontName, hl]
    refine ⟨_, rfl, ?_⟩
    rw [fontState_updateContentSize hk]
    rfl
  obtain ⟨b', hb', hf⟩ := hmain
  have hname : b'._fontName = f := congrArg Prod.fst hf
  have hfont := congrArg Prod.snd hf
  refine ⟨l, b', hl, h1, h2, hb', hname, fun he hc => ?_, fun he hc => ?_, fun he => ?_⟩
  · have hc' := (containsSubstring_iff _ _).mpr hc
    rw [if_pos he, if_pos hc'] at hfont
    exact hfont
  · have hc' : ¬ containsSubstring (f.map Char.toLower).toList ".fnt".toList = true :=
      fun h => hc ((containsSubstring_iff _ _).mp h)
    rw [if_pos he, if_neg hc'] at hfont
    exact hfont
  · rw [if_neg (by rw [he]; decide)] at hfont
    exact hfont

/-- C11, evaluated on a fresh button and the existing file `Arial.FNT`, whose lower-cased
name contains ".fnt": the bitmap font call is the one that applies. -/
theorem font_configuration_by_name_witness :
    Engine.fonts.FileUtils_isFileExist "Arial.FNT" = true ∧
    (∃ pre post, ("Arial.FNT".map Char.toLower).toList = pre ++ ".fnt".toList ++ post) ∧
    ∃ l b', (createTitleRendererIfNull Engine.fonts fresh).2._titleRenderer = some l ∧
      (fresh._titleRenderer = none →
        l = Engine.fonts.Label_create.setAnchorPoint Vec2.ANCHOR_MIDDLE) ∧
      (∀ l0, fresh._titleRenderer = some l0 → l = l0) ∧
      setTitleFontName Engine.fonts "Arial.FNT" fresh = some b' ∧
      b'._fontName = "Arial.FNT" ∧
      (Engine.fonts.FileUtils_isFileExist "Arial.FNT" = true →
        (∃ pre post, ("Arial.FNT".map Char.toLower).toList = pre ++ ".fnt".toList ++ post) →
        b'._titleRenderer.map fontOf =
          some (fontOf (Engine.fonts.Label_setBMFontFilePath "Arial.FNT" l))) ∧
      (Engine.fonts.FileUtils_isFileExist "Arial.FNT" = true →
        (¬ ∃ pre post, ("Arial.FNT".map Char.toLower).toList = pre ++ ".fnt".toList ++ post) →
        b'._titleRenderer.map fontOf =
          some (fontOf (Engine.fonts.Label_setTTFConfig
            { l.ttfConfig with fontFilePath := "Arial.FNT" } l))) ∧
      (Engine.fonts.FileUtils_isFileExist "Arial.FNT" = false →
        b'._titleRenderer.map fontOf =
          some (fontOf (Engine.fonts.Label_setSystemFontName "Arial.FNT" l))) :=
  ⟨by decide, ⟨"arial".toList, [], by rw [String.map_eq]; decide⟩,
    font_configuration_by_name Engine.fonts
      ⟨fun _ _ => rfl, fun _ _ => rfl, fun _ => rfl, fun _ _ => rfl, fun _ _ => rfl, fun _ => rfl⟩
      "Arial.FNT" fresh⟩

/-- C12. Size selection: with unify-size on `getVirtualRendererSize` is `getNormalSize`,
the component-wise maximum of the title's content size, (0, 0) without a title, and the
normal renderer's content size; with unify-size off it is the title's content size when a
title exists, the normal texture is not loaded and the title string is not empty, and the
recorded normal texture size in every other case. -/
theorem virtual_renderer_size_selection (E : Engine) (b : Button) :
    (b._unifySize = true → getVirtualRendererSize E b = getNormalSize E b) ∧
    (b._titleRenderer = none →
      getNormalSize E b =
        ⟨max 0 (E.Scale9Sprite_getContentSize b._buttonNormalRenderer).width,
          max 0 (E.Scale9Sprite_getContentSize b._buttonNormalRenderer).height⟩) ∧
    (∀ l, b._titleRenderer = some l →
      getNormalSize E b =
        ⟨max (E.Label_getContentSize l).width
            (E.Scale9Sprite_getContentSize b._buttonNormalRenderer).width,
          max (E.Label_getContentSize l).height
            (E.Scale9Sprite_getContentSize b._buttonNormalRenderer).height⟩) ∧
    (b._unifySize = false →
      (∀ l, b._titleRenderer = some l → b._normalTextureLoaded = false → l.string ≠ "" →
        getVirtualRendererSize E b = E.Label_getContentSize l) ∧
      (b._titleRenderer = none → getVirtualRendererSize E b = b._normalTextureSize) ∧
      (b._normalTextureLoaded = true → getVirtualRendererSize E b = b._normalTextureSize) ∧
      (∀ l, b._titleRenderer = some l → l.string = "" →
        getVirtualRendererSize E b = b._normalTextureSize)) := by
  have hmax : ∀ x y : ℚ, (if x > y then x else y) = max x y := by
    intro x y
    split_ifs with h
    · exact (max_eq_left (le_of_lt h)).symm
    · exact (max_eq_right (not_lt.mp h)).symm
  refine ⟨fun hu => ?_, fun ht => ?_, fun l ht => ?_, fun hu => ⟨fun l ht hn hs => ?_, fun ht => ?_,
    fun hn => ?_, fun l ht hs => ?_⟩⟩
  · simp only [getVirtualRendererSize, hu, if_true]
  · simp only [getNormalSize, ht, hmax]
  · simp only [getNormalSize, ht, hmax]
  · have he : l.string.isEmpty = false := by
      cases h : l.string.isEmpty
      · rfl
      · exact absurd ((String.isEmpty_iff _).mp h) hs
    simp only [getVirtualRendererSize, hu, ht, hn, he, Bool.false_eq_true, if_false, Bool.not_false,
      Bool.and_self, if_true]
  · simp only [getVirtualRendererSize, hu, ht, Bool.false_eq_true, if_false]
  · cases ht : b._titleRenderer <;>
      simp only [getVirtualRendererSize, hu, ht, hn, Bool.false_eq_true, if_false, Bool.not_true,
        Bool.false_and]
  · have he : l.string.isEmpty = true := (String.isEmpty_iff _).mpr hs
    simp only [getVirtualRendererSize, hu, ht, he, Bool.false_eq_true, if_false, Bool.not_true,
      Bool.and_false]

/-- C12, evaluated with unify-size off on a fresh button, which has no title, and on a
button whose normal texture is loaded: both answer with the recorded texture size. -/
theorem virtual_renderer_size_selection_witness :
    fresh._unifySize = false ∧ fresh._titleRenderer = none ∧
    getVirtualRendererSize Engine.plain fresh = fresh._normalTextureSize ∧
    threeImages._unifySize = false ∧ threeImages._normalTextureLoaded = true ∧
    getVirtualRendererSize Engine.plain threeImages = threeImages._normalTextureSize :=
  ⟨by decide, rfl,
    ((virtual_renderer_size_selection Engine.plain fresh).2.2.2 (by decide)).2.1 rfl,
    by decide, by decide,
    ((virtual_renderer_size_selection Engine.plain threeImages).2.2.2 (by decide)).2.2.1
      (by decide)⟩

/-- C13. Size adaptation: when `Widget::onSizeChanged` leaves the content size as it is,
after `onSizeChanged` and `adaptRenderers` the content size is unchanged, the three
adapt-dirty flags are off, each background renderer has the content size as preferred size
and sits at half the width and half the height, and a second `adaptRenderers` changes
nothing. -/
theorem size_adaptation_of_backgrounds (E : Engine) (b : Button)
    (h : (E.Widget_onSizeChanged b)._contentSize = b._contentSize) :
    (adaptRenderers (onSizeChanged E b))._contentSize = b._contentSize ∧
    (adaptRenderers (onSizeChanged E b))._normalTextureAdaptDirty = false ∧
    (adaptRenderers (onSizeChanged E b))._pressedTextureAdaptDirty = false ∧
    (adaptRenderers (onSizeChanged E b))._disabledTextureAdaptDirty = false ∧
    (adaptRenderers (onSizeChanged E b))._buttonNormalRenderer.preferredSize = b._contentSize ∧
    (adaptRenderers (onSizeChanged E b))._buttonClickedRenderer.preferredSize = b._contentSize ∧
    (adaptRenderers (onSizeChanged E b))._buttonDisabledRenderer.preferredSize = b._contentSize ∧
    (adaptRenderers (onSizeChanged E b))._buttonNormalRenderer.position =
      ⟨b._contentSize.width / 2, b._contentSize.height / 2⟩ ∧
    (adaptRenderers (onSizeChanged E b))._buttonClickedRenderer.position =
      ⟨b._contentSize.width / 2, b._contentSize.height / 2⟩ ∧
    (adaptRenderers (onSizeChanged E b))._buttonDisabledRenderer.position =
      ⟨b._contentSize.width / 2, b._contentSize.height / 2⟩ ∧
    adaptRenderers (adaptRenderers (onSizeChanged E b)) = adaptRenderers (onSizeChanged E b) := by
  have hc : (onSizeChanged E b)._contentSize = b._contentSize :=
    (contentSize_onSizeChanged E b).trans h
  obtain ⟨d1, d2, d3⟩ := dirty_onSizeChanged E b
  have ha := adaptRenderers_of_dirty (onSizeChanged E b) d1 d2 d3
  rw [hc] at ha
  exact ha

/-- C13, evaluated on the button with three images over the plain engine. -/
theorem size_adaptation_of_backgrounds_witness :
    (adaptRenderers (onSizeChanged Engine.plain threeImages))._contentSize =
      threeImages._contentSize ∧
    (adaptRenderers (onSizeChanged Engine.plain threeImages))._normalTextureAdaptDirty = false ∧
    (adaptRenderers (onSizeChanged Engine.plain threeImages))._buttonNormalRenderer.preferredSize =
      threeImages._contentSize ∧
    adaptRenderers (adaptRenderers (onSizeChanged Engine.plain threeImages)) =
      adaptRenderers (onSizeChanged Engine.plain threeImages) :=
  ⟨(size_adaptation_of_backgrounds Engine.plain threeImages rfl).1,
    (size_adaptation_of_backgrounds Engine.plain threeImages rfl).2.1,
    (size_adaptation_of_backgrounds Engine.plain threeImages rfl).2.2.2.2.1,
    (size_adaptation_of_backgrounds Engine.plain threeImages rfl).2.2.2.2.2.2.2.2.2.2⟩

/-- C14, as amended. Press then release restores the scale: for a button whose normal and
pressed renderers are at scale 1 and on whose pressed renderer no action is running, unless
the pressed texture is loaded and the pressed action is on, `onPressStateChangedToPressed`,
then whatever a running zoom action did to the scale of the pressed renderer, then
`onPressStateChangedToNormal` leave both renderers at scale 1; the two flags and the zoom
scale are the same in between. -/
theorem press_release_restores_scale (b : Button) (sx sy : ℚ)
    (hn : b._buttonNormalRenderer.scaleX = 1 ∧ b._buttonNormalRenderer.scaleY = 1)
    (hc : b._buttonClickedRenderer.scaleX = 1 ∧ b._buttonClickedRenderer.scaleY = 1)
    (hrest : (b._pressedTextureLoaded = true ∧ b._pressedActionEnabled = true) ∨
      b._buttonClickedRenderer.actions = []) :
    ((zoomed sx sy (onPressStateChangedToPressed b))._pressedTextureLoaded =
        b._pressedTextureLoaded ∧
      (zoomed sx sy (onPressStateChangedToPressed b))._pressedActionEnabled =
        b._pressedActionEnabled ∧
      (zoomed sx sy (onPressStateChangedToPressed b))._zoomScale = b._zoomScale) ∧
    (onPressStateChangedToNormal
      (zoomed sx sy (onPressStateChangedToPressed b)))._buttonNormalRenderer.scaleX = 1 ∧
    (onPressStateChangedToNormal
      (zoomed sx sy (onPressStateChangedToPressed b)))._buttonNormalRenderer.scaleY = 1 ∧
    (onPressStateChangedToNormal
      (zoomed sx sy (onPressStateChangedToPressed b)))._buttonClickedRenderer.scaleX = 1 ∧
    (onPressStateChangedToNormal
      (zoomed sx sy (onPressStateChangedToPressed b)))._buttonClickedRenderer.scaleY = 1 := by
  cases b with
  | mk _ _ _ unify _ _ _ normal clicked _ title _ _ _ action _ _ _ _ _ _ _ loaded =>
    cases normal with
    | mk _ _ nx ny _ _ _ _ _ _ =>
      cases clicked with
      | mk _ _ cx cy _ _ _ _ acts _ =>
        dsimp only at hn hc hrest
        obtain ⟨hn1, hn2⟩ := hn
        obtain ⟨hc1, hc2⟩ := hc
        subst hn1 hn2 hc1 hc2
        cases loaded <;> cases action <;> cases title <;> cases unify <;> cases acts <;>
          first
          | exact ⟨⟨rfl, rfl, rfl⟩, rfl, rfl, rfl, rfl⟩
          | (rcases hrest with ⟨h1, h2⟩ | h3
             · first | exact absurd h1 (by decide) | exact absurd h2 (by decide)
             · exact absurd h3 (by simp))

/-- C14 as amended, evaluated on the zooming button, which has a pressed texture and the
pressed action on: the press scales the normal renderer by `1.0f + 0.1f` and starts the zoom
action on the pressed renderer, the action brings the pressed renderer to that scale, and
the release puts both renderers back to scale 1. -/
theorem press_release_restores_scale_witness :
    (zooming._pressedTextureLoaded = true ∧ zooming._pressedActionEnabled = true) ∧
    (zooming._buttonNormalRenderer.scaleX = 1 ∧ zooming._buttonClickedRenderer.scaleX = 1) ∧
    ((onPressStateChangedToPressed zooming)._buttonNormalRenderer.scaleX = 9227469 / 8388608 ∧
      (onPressStateChangedToPressed zooming)._buttonClickedRenderer.actions =
        [Action.scaleTo ZOOM_ACTION_TIME_STEP (9227469 / 8388608) (9227469 / 8388608)] ∧
      (zoomed (9227469 / 8388608) (9227469 / 8388608)
        (onPressStateChangedToPressed zooming))._buttonClickedRenderer.scaleX =
          9227469 / 8388608) ∧
    (onPressStateChangedToNormal (zoomed (9227469 / 8388608) (9227469 / 8388608)
      (onPressStateChangedToPressed zooming)))._buttonNormalRenderer.scaleX = 1 ∧
    (onPressStateChangedToNormal (zoomed (9227469 / 8388608) (9227469 / 8388608)
      (onPressStateChangedToPressed zooming)))._buttonNormalRenderer.scaleY = 1 ∧
    (onPressStateChangedToNormal (zoomed (9227469 / 8388608) (9227469 / 8388608)
      (onPressStateChangedToPressed zooming)))._buttonClickedRenderer.scaleX = 1 ∧
    (onPressStateChangedToNormal (zoomed (9227469 / 8388608) (9227469 / 8388608)
      (onPressStateChangedToPressed zooming)))._buttonClickedRenderer.scaleY = 1 :=
  ⟨⟨rfl, rfl⟩, ⟨rfl, rfl⟩,
    ⟨Eq.trans rfl Float32.add_one_default,
      Eq.trans rfl (congrArg
        (fun k => [Action.scaleTo ZOOM_ACTION_TIME_STEP k k]) Float32.add_one_default),
      rfl⟩,
    (press_release_restores_scale zooming (9227469 / 8388608) (9227469 / 8388608)
      ⟨rfl, rfl⟩ ⟨rfl, rfl⟩ (Or.inl ⟨rfl, rfl⟩)).2⟩

/-- C14 as stated fails: on the button with a lingering zoom action both renderers start at
scale 1 and the flags and the zoom scale stay as they are in between, the pressed texture
is loaded and the pressed action is off, so neither handler touches the pressed renderer;
the scale the action gave it, its target `1.0f + 0.1f`, is still there after the release. -/
theorem press_release_lingering_action :
    (lingering._buttonNormalRenderer.scaleX = 1 ∧ lingering._buttonNormalRenderer.scaleY = 1 ∧
      lingering._buttonClickedRenderer.scaleX = 1 ∧
      lingering._buttonClickedRenderer.scaleY = 1) ∧
    ((zoomed (9227469 / 8388608) (9227469 / 8388608)
        (onPressStateChangedToPressed lingering))._pressedTextureLoaded =
        lingering._pressedTextureLoaded ∧
      (zoomed (9227469 / 8388608) (9227469 / 8388608)
        (onPressStateChangedToPressed lingering))._pressedActionEnabled =
        lingering._pressedActionEnabled ∧
      (zoomed (9227469 / 8388608) (9227469 / 8388608)
        (onPressStateChangedToPressed lingering))._zoomScale =
        lingering._zoomScale) ∧
    ¬ (onPressStateChangedToNormal (zoomed (9227469 / 8388608) (9227469 / 8388608)
        (onPressStateChangedToPressed lingering)))._buttonClickedRenderer.scaleX = 1 := by
  refine ⟨by decide, ⟨rfl, rfl, rfl⟩, ?_⟩
  have h : (onPressStateChangedToNormal (zoomed (9227469 / 8388608) (9227469 / 8388608)
      (onPressStateChangedToPressed lingering)))._buttonClickedRenderer.scaleX =
        9227469 / 8388608 := rfl
  rw [h]
  norm_num

/-- C15. Toggling scale9 restores the size mode: for a button with scale9 off,
`setScale9Enabled(true)` followed by `setScale9Enabled(false)` gives back the ignore-size
flag; with unify-size off the flag is off in between and `ignoreContentAdaptWithSize(true)`
then changes neither the flag nor the remembered previous value. Engines are those where
`Widget::ignoreContentAdaptWithSize(v)` sets the flag to `v` when unify-size is off, the
base-class calls keep the unify flag, the scale9 flag and the remembered value, and
`Widget::onSizeChanged` and `Widget::setBright` keep the ignore-size flag. -/
theorem scale9_toggle_restores_size_mode (E : Engine) (hk : E.Keeps sizeMode)
    (hset : ∀ v b, b._unifySize = false →
      (E.Widget_ignoreContentAdaptWithSize v b)._ignoreSize = v)
    (hsz : ∀ b, (E.Widget_onSizeChanged b)._ignoreSize = b._ignoreSize)
    (hbr : ∀ v b, (E.Widget_setBright v b)._ignoreSize = b._ignoreSize)
    (b : Button) (h9 : b._scale9Enabled = false) :
    (setScale9Enabled E false (setScale9Enabled E true b))._ignoreSize = b._ignoreSize ∧
    (b._unifySize = false →
      (setScale9Enabled E true b)._ignoreSize = false ∧
      (ignoreContentAdaptWithSize E true (setScale9Enabled E true b))._ignoreSize =
        (setScale9Enabled E true b)._ignoreSize ∧
      (ignoreContentAdaptWithSize E true (setScale9Enabled E true b))._prevIgnoreSize =
        (setScale9Enabled E true b)._prevIgnoreSize) := by
  have h1 := sizeMode_setScale9Enabled hk hset hsz hbr true b h9
  rw [if_pos rfl] at h1
  generalize setScale9Enabled E true b = b1 at h1 ⊢
  obtain ⟨i1, m1⟩ := Prod.mk.inj h1
  obtain ⟨u1, m1⟩ := Prod.mk.inj m1
  obtain ⟨s1, p1⟩ := Prod.mk.inj m1
  have u1' : b1._unifySize = b._unifySize := u1
  have s1' : b1._scale9Enabled = true := s1
  have p1' : b1._prevIgnoreSize = b._ignoreSize := p1
  have h2 := sizeMode_setScale9Enabled hk hset hsz hbr false b1 s1'
  rw [if_neg (by decide)] at h2
  have i2 := (Prod.mk.inj h2).1
  refine ⟨?_, fun hu => ?_⟩
  · rw [i2, u1', p1', i1]
    cases b._unifySize <;> rfl
  · have hu1 : b1._unifySize = false := u1'.trans hu
    refine ⟨?_, ?_, ?_⟩
    · rw [i1, hu]; rfl
    · simp only [ignoreContentAdaptWithSize, hu1, s1', Bool.false_eq_true, if_false,
        Bool.not_true, Bool.and_false, Bool.or_self]
    · simp only [ignoreContentAdaptWithSize, hu1, s1', Bool.false_eq_true, if_false,
        Bool.not_true, Bool.and_false, Bool.or_self]

/-- C15, evaluated on a fresh button over the plain engine: scale9 is off, unify-size is
off and the ignore-size flag is on. -/
theorem scale9_toggle_restores_size_mode_witness :
    fresh._scale9Enabled = false ∧ fresh._unifySize = false ∧ fresh._ignoreSize = true ∧
    (setScale9Enabled Engine.plain false (setScale9Enabled Engine.plain true fresh))._ignoreSize =
      true ∧
    (setScale9Enabled Engine.plain true fresh)._ignoreSize = false :=
  ⟨rfl, rfl, rfl,
    (scale9_toggle_restores_size_mode Engine.plain
      ⟨fun _ _ => rfl, fun _ _ => rfl, fun _ => rfl, fun _ _ => rfl, fun _ _ => rfl, fun _ => rfl⟩
      (fun _ _ _ => rfl) (fun _ => rfl) (fun _ _ => rfl) fresh rfl).1,
    ((scale9_toggle_restores_size_mode Engine.plain
      ⟨fun _ _ => rfl, fun _ _ => rfl, fun _ => rfl, fun _ _ => rfl, fun _ _ => rfl, fun _ => rfl⟩
      (fun _ _ _ => rfl) (fun _ => rfl) (fun _ _ => rfl) fresh rfl).2 rfl).1⟩

end Button

end ui
